import Mathlib

/-!
# FulDocs client handlers

A shallow embedding of the two browser handlers of the repository,
`static/js/star.js` (`toggleStar`) and `static/js/document_preview.js`
(`showDocumentPreview`), together with the parts of the JavaScript and DOM
semantics they rely on.

Conventions of the embedding.

* A JavaScript string is the list of its UTF-16 code units (`JSString`), so a
  string may hold an unpaired surrogate; string literals of the source are
  written `js "..."`.
* A parsed JSON body is a `JSVal`.  A number is given by what the handlers
  observe of it: the text `Number::toString` yields and its truthiness.
* `ToString` and `ToPrimitive` throw a `TypeError` on an object that has an own
  `toString` property, which after `JSON.parse` is never callable.
* An `async` function with a single network round trip is a function of the
  state before the call and of the outcome of that round trip (`FetchOutcome`).
  The state mutations made before an exception is thrown are kept, exactly as DOM
  mutations are.
* Host behaviour the source does not fix (date formatting, the case mapping of
  non-ASCII text, the messages of the engine's errors) is supplied by a `Host`
  record.
* Markup assigned to `innerHTML` is kept as the assigned string; the elements it
  creates are read off with a tokenizer for HTML tags.
-/

namespace FulDocs

/-! ## Strings -/

/-- A JavaScript string: its UTF-16 code units. -/
abbrev JSString := List Nat

/-- The UTF-16 encoding of a character. -/
def utf16 (c : Char) : List Nat :=
  if c.toNat < 0x10000 then [c.toNat]
  else [0xD800 + (c.toNat - 0x10000) / 0x400, 0xDC00 + (c.toNat - 0x10000) % 0x400]

/-- The JavaScript string denoted by a string literal. -/
def js (s : String) : JSString := s.toList.flatMap utf16

/-- Decimal text of a number in a template literal. -/
def natStr (n : Nat) : JSString := js (toString n)

/-! ## JavaScript values -/

/-- A Number value, given by what the handlers observe of it. -/
structure JSNumber where
  /-- The text `Number::toString` yields, such as `4`, `1.5` or `1e+21`. -/
  text : JSString
  /-- Whether the number is truthy: it is neither zero nor `NaN`. -/
  nonzero : Bool
deriving DecidableEq

/-- A value produced by `JSON.parse`, or `undefined`. -/
inductive JSVal where
  | undefined
  | null
  | bool (b : Bool)
  | num (x : JSNumber)
  | str (s : JSString)
  | arr (items : List JSVal)
  | obj (fields : List (JSString × JSVal))

/-- An exception value; every exception the handlers meet is an `Error` object,
of which only the `message` is observed. -/
structure JSError where
  message : JSString
deriving DecidableEq

/-- Behaviour of the JavaScript host that the source leaves open. -/
structure Host where
  /-- The text of `new Date(v).toLocaleDateString()` for a value `v` that
  `ToPrimitive` accepts. -/
  toLocaleDateString : JSVal → JSString
  /-- The result of `s.toLowerCase()` for a string `s` that is not pure ASCII. -/
  toLowerCase : JSString → JSString
  /-- The message of the `TypeError` raised by reading property `k` of `null`. -/
  nullPropertyMessage : JSString → JSString
  /-- The message of the `TypeError` raised by calling the missing method `k`. -/
  notFunctionMessage : JSString → JSString
  /-- The message of the `TypeError` raised when `ToPrimitive` finds no callable
  `toString` or `valueOf` that yields a primitive. -/
  notPrimitiveMessage : JSString
  /-- The message of the `URIError` raised on an unpaired surrogate. -/
  uriErrorMessage : JSString

namespace JSVal

/-- The abstract operation `ToBoolean`. -/
def truthy : JSVal → Bool
  | undefined => false
  | null => false
  | bool b => b
  | num x => x.nonzero
  | str s => !s.isEmpty
  | arr _ => true
  | obj _ => true

mutual
/-- The string `ToString` yields when it completes; an array is joined with
commas, as `Array.prototype.toString` does. -/
def text : JSVal → JSString
  | undefined => js "undefined"
  | null => js "null"
  | bool true => js "true"
  | bool false => js "false"
  | num x => x.text
  | str s => s
  | arr items => joinItems items
  | obj _ => js "[object Object]"
termination_by structural v => v
/-- The body of `Array.prototype.join` with separator `,`: `null` and `undefined`
elements contribute the empty string. -/
def joinItems : List JSVal → JSString
  | [] => []
  | v :: rest =>
    (match v with
      | undefined => []
      | null => []
      | v => text v) ++ (match rest with | [] => [] | _ :: _ => ','.toNat :: joinItems rest)
termination_by structural l => l
end

mutual
/-- Whether `ToPrimitive` (and so `ToString`) completes on the value.  An object
with an own `toString` property has no callable `toString`, and `valueOf` returns
the object itself, so the conversion throws; the elements of an array are
converted by `join`. -/
def convertible : JSVal → Bool
  | arr items => allConvertible items
  | obj fields => !(fields.any (fun f => f.1 == js "toString"))
  | _ => true
termination_by structural v => v
/-- Whether every element of an array converts. -/
def allConvertible : List JSVal → Bool
  | [] => true
  | v :: rest => convertible v && allConvertible rest
termination_by structural l => l
end

/-- The abstract operation `ToString`. -/
def toStr (host : Host) (v : JSVal) : Except JSError JSString :=
  if v.convertible then .ok v.text else .error ⟨host.notPrimitiveMessage⟩

/-- The test `v !== undefined`. -/
def isDefined : JSVal → Bool
  | undefined => false
  | _ => true

/-- The test `v === s` for a string literal `s`. -/
def strictEqStr (v : JSVal) (s : JSString) : Bool :=
  match v with
  | str t => t == s
  | _ => false

/-- The expression `[s₁, …, sₙ].includes(v)` for string literals `sᵢ`. -/
def includedIn (v : JSVal) (literals : List JSString) : Bool :=
  literals.any (fun s => v.strictEqStr s)

/-- The expression `a || b`. -/
def orElse (a b : JSVal) : JSVal := if a.truthy then a else b

/-- Whether the value is `null` or `undefined`. -/
def isNullish : JSVal → Bool
  | undefined => true
  | null => true
  | _ => false

/-- The value of `v.k` for a key `k` that no prototype defines, where `v` is
neither `null` nor `undefined`: an object yields its own property, every other
value yields `undefined`. -/
def get (v : JSVal) (k : JSString) : JSVal :=
  match v with
  | obj fields => (fields.lookup k).getD undefined
  | _ => undefined

/-- Property read `v.k`: reading from `null` or `undefined` throws. -/
def getProp (host : Host) (v : JSVal) (k : JSString) : Except JSError JSVal :=
  if v.isNullish then .error ⟨host.nullPropertyMessage k⟩ else .ok (v.get k)

/-- The string the setter `node.textContent = v` stores when the conversion
completes: `null` and `undefined` clear the node. -/
def nodeText : JSVal → JSString
  | undefined => []
  | null => []
  | v => v.text

/-- The setter `node.textContent = v`: `null` and `undefined` clear the node,
anything else is converted with `ToString`. -/
def textContent (host : Host) (v : JSVal) : Except JSError JSString :=
  match v with
  | undefined => .ok []
  | null => .ok []
  | v => v.toStr host

end JSVal

/-- The expression `new Error(v)`: the message is `ToString(v)` unless `v` is
`undefined`. -/
def newError (host : Host) (v : JSVal) : Except JSError JSError :=
  match v with
  | .undefined => .ok ⟨[]⟩
  | v =>
    match v.toStr host with
    | .error e => .error e
    | .ok m => .ok ⟨m⟩

/-- The expression `new Date(v).toLocaleDateString()`: the constructor applies
`ToPrimitive` to `v`. -/
def newDateText (host : Host) (v : JSVal) : Except JSError JSString :=
  if v.convertible then .ok (host.toLocaleDateString v) else .error ⟨host.notPrimitiveMessage⟩

/-! ## `encodeURIComponent` -/

/-- Code units `encodeURIComponent` leaves alone: ASCII letters, digits and
`- _ . ! ~ * ' ( )`. -/
def isUnreserved (u : Nat) : Bool :=
  ('0'.toNat ≤ u && u ≤ '9'.toNat) || ('A'.toNat ≤ u && u ≤ 'Z'.toNat) ||
  ('a'.toNat ≤ u && u ≤ 'z'.toNat) ||
  u ∈ ['-'.toNat, '_'.toNat, '.'.toNat, '!'.toNat, '~'.toNat, '*'.toNat, 39, '('.toNat, ')'.toNat]

/-- Leading surrogates. -/
def isHighSurrogate (u : Nat) : Bool := 0xD800 ≤ u && u ≤ 0xDBFF

/-- Trailing surrogates. -/
def isLowSurrogate (u : Nat) : Bool := 0xDC00 ≤ u && u ≤ 0xDFFF

/-- Upper-case hexadecimal digit. -/
def hexDigit (n : Nat) : Nat := (js "0123456789ABCDEF").getD n '0'.toNat

/-- Percent-escape of one byte. -/
def percentByte (b : Nat) : JSString := ['%'.toNat, hexDigit (b / 16), hexDigit (b % 16)]

/-- UTF-8 encoding of a code point. -/
def utf8Bytes (n : Nat) : List Nat :=
  if n < 0x80 then [n]
  else if n < 0x800 then [0xC0 + n / 64, 0x80 + n % 64]
  else if n < 0x10000 then [0xE0 + n / 4096, 0x80 + n / 64 % 64, 0x80 + n % 64]
  else [0xF0 + n / 262144, 0x80 + n / 4096 % 64, 0x80 + n / 64 % 64, 0x80 + n % 64]

/-- Percent-escape of a code point. -/
def percentCodePoint (n : Nat) : JSString := (utf8Bytes n).flatMap percentByte

/-- The abstract operation `Encode` with the unreserved set of
`encodeURIComponent`: `none` when an unpaired surrogate is met. -/
def encodeUnits : JSString → Option JSString
  | [] => some []
  | [u] =>
    if isUnreserved u then some [u]
    else if isHighSurrogate u || isLowSurrogate u then none
    else some (percentCodePoint u)
  | u :: l :: rest =>
    if isUnreserved u then (encodeUnits (l :: rest)).map (fun r => u :: r)
    else if isHighSurrogate u then
      if isLowSurrogate l then
        (encodeUnits rest).map (fun r =>
          percentCodePoint (0x10000 + (u - 0xD800) * 0x400 + (l - 0xDC00)) ++ r)
      else none
    else if isLowSurrogate u then none
    else (encodeUnits (l :: rest)).map (fun r => percentCodePoint u ++ r)

/-- The function `encodeURIComponent` on well-formed text, where it always
completes. -/
def encodeText (s : List Char) : JSString :=
  s.flatMap (fun c => if isUnreserved c.toNat then [c.toNat] else percentCodePoint c.toNat)

/-- The global function `encodeURIComponent` on a string. -/
def encodeURIComponent (host : Host) (s : JSString) : Except JSError JSString :=
  match encodeUnits s with
  | some r => .ok r
  | none => .error ⟨host.uriErrorMessage⟩

/-- The call `encodeURIComponent(v)`: the argument is converted with `ToString`
first. -/
def encodeCall (host : Host) (v : JSVal) : Except JSError JSString :=
  match v.toStr host with
  | .error e => .error e
  | .ok s => encodeURIComponent host s

/-! ## `String.prototype` methods used by the source -/

/-- The call `s.split(sep)` for a one-unit separator. -/
def split (sep : Nat) : JSString → List JSString
  | [] => [[]]
  | c :: cs =>
    if c = sep then [] :: split sep cs
    else
      match split sep cs with
      | [] => [[c]]
      | seg :: segs => (c :: seg) :: segs

/-- The call `xs.pop()` as far as its result goes: the last element, or
`undefined` when the array is empty. -/
def pop (xs : List JSString) : Option JSString := xs.getLast?

/-- ASCII letters. -/
def isAsciiAlpha (u : Nat) : Bool :=
  ('A'.toNat ≤ u && u ≤ 'Z'.toNat) || ('a'.toNat ≤ u && u ≤ 'z'.toNat)

/-- Lower-case form of an ASCII code unit. -/
def asciiLower (u : Nat) : Nat := if 'A'.toNat ≤ u ∧ u ≤ 'Z'.toNat then u + 32 else u

/-- The call `s.toLowerCase()`: on pure ASCII text only `A` to `Z` change; the
mapping of any other text is the host's. -/
def toLowerCase (host : Host) (s : JSString) : JSString :=
  if s.all (fun u => u < 128) then s.map asciiLower else host.toLowerCase s

/-! ## `DOMTokenList` -/

/-- The method `classList.add(token)`. -/
def DOMTokenList.add (tokens : List JSString) (token : JSString) : List JSString :=
  if token ∈ tokens then tokens else tokens ++ [token]

/-- The method `classList.remove(token)`. -/
def DOMTokenList.remove (tokens : List JSString) (token : JSString) : List JSString :=
  tokens.filter (fun t => t != token)

/-- Ordered-set replacement: the first occurrence of either token becomes
`newToken`, every later occurrence of either is dropped. -/
def DOMTokenList.replaceFirst (token newToken : JSString) : List JSString → List JSString
  | [] => []
  | t :: ts =>
    if t = token ∨ t = newToken then
      newToken :: ts.filter (fun u => u != token && u != newToken)
    else t :: DOMTokenList.replaceFirst token newToken ts

/-- The method `classList.replace(token, newToken)`: nothing happens unless
`token` is in the list. -/
def DOMTokenList.replace (tokens : List JSString) (token newToken : JSString) : List JSString :=
  if token ∈ tokens then DOMTokenList.replaceFirst token newToken tokens else tokens

/-! ## Network -/

/-- What the awaited `fetch(...)` and `response.json()` deliver: a rejected
`fetch`, or a response with its status and the result of parsing its body. -/
inductive FetchOutcome where
  | rejected (error : JSError)
  | response (status : Nat) (json : Except JSError JSVal)

/-- The getter `response.ok`: the status is in the range 200 to 299. -/
def statusOk (status : Nat) : Bool := 200 ≤ status && status ≤ 299

/-! ## star.js -/

/-- A star button as `toggleStar` sees it: the button itself, its first `i`
descendant, its first `span:not(.star-count)` descendant and its `.star-count`
descendant.  The three descendants are distinct elements, none inside another. -/
structure StarButton where
  disabled : Bool
  classList : List JSString
  /-- Class list of the icon, when the button has an `i` element. -/
  icon : Option (List JSString)
  /-- Text of the label span, when the button has one. -/
  label : Option JSString
  /-- Text of the counter, when the button has a `.star-count` element. -/
  counter : Option JSString
deriving DecidableEq

/-- A request handed to `fetch`. -/
structure Request where
  method : JSString
  url : JSString
  headers : List (JSString × JSString)
  credentials : JSString
deriving DecidableEq

/-- The page state `toggleStar` reads and writes. -/
structure Page where
  /-- The attribute `data-user-id` of `document.body`, `none` when absent. -/
  userId : Option JSString
  /-- The value of `window.location.pathname`; the path of a URL is well-formed
  (indeed ASCII) text, held here as a list of characters. -/
  pathname : List Char
  /-- The last value assigned to `window.location.href`, `none` when none was. -/
  href : Option JSString
  /-- The element the selector of `toggleStar` resolves to, `none` when there is none. -/
  button : Option StarButton
  /-- The requests issued so far. -/
  requests : List Request
  /-- The messages shown with `alert`. -/
  alerts : List JSString
  /-- The first arguments of the `console.error` calls. -/
  console : List JSString
  /-- Whether `preventDefault` was called on the event. -/
  defaultPrevented : Bool
deriving DecidableEq

/-- Function `isLoggedIn`: `getAttribute` yields `null` for an absent attribute,
and `null !== 'None'`. -/
def isLoggedIn (page : Page) : Bool :=
  match page.userId with
  | none => true
  | some id => id != js "None"

/-- Function `showToast` applied to a string; the `type` argument is ignored by
the source. -/
def showToast (message : JSString) (page : Page) : Page :=
  { page with alerts := page.alerts ++ [message] }

/-- Function `showLoginModal`. -/
def showLoginModal (page : Page) : Page :=
  { page with href := some (js "/login?next=" ++ encodeText page.pathname) }

/-- Apply `f` to the button captured in `starButton`. -/
def Page.updButton (f : StarButton → StarButton) (page : Page) : Page :=
  { page with button := page.button.map f }

/-- Lines 41 to 49: the appearance update, driven by `data.starred`. -/
def applyStarred (starred : Bool) (b : StarButton) : StarButton :=
  if starred then
    { b with
      classList := DOMTokenList.add b.classList (js "starred")
      icon := b.icon.map (fun cl => DOMTokenList.replace cl (js "far") (js "fas"))
      label := b.label.map (fun _ => js " Starred") }
  else
    { b with
      classList := DOMTokenList.remove b.classList (js "starred")
      icon := b.icon.map (fun cl => DOMTokenList.replace cl (js "fas") (js "far"))
      label := b.label.map (fun _ => js " Star") }

/-- Lines 52 to 54: the counter update; the setter converts `data.star_count`. -/
def applyStarCount (host : Host) (count : JSVal) (page : Page) : Except JSError Page :=
  match page.button with
  | none => .ok page
  | some b =>
    if count.isDefined && b.counter.isSome then
      match count.textContent host with
      | .error e => .error e
      | .ok t => .ok { page with button := some { b with counter := some t } }
    else .ok page

/-- Lines 57 to 61: the feedback; `alert` converts its argument. -/
def showFeedback (host : Host) (message : JSVal) (starred : Bool) (page : Page) :
    Except JSError Page :=
  if message.truthy then
    match message.toStr host with
    | .error e => .error e
    | .ok m => .ok (showToast m page)
  else
    .ok (showToast (if starred then js "Added to your stars"
      else js "Removed from your stars") page)

/-- The request of line 22. -/
def starRequest (itemType itemId : JSString) : Request :=
  { method := js "POST"
    url := js "/api/star/" ++ itemType ++ js "/" ++ itemId
    headers := [(js "Content-Type", js "application/json"),
                (js "X-Requested-With", js "XMLHttpRequest")]
    credentials := js "same-origin" }

/-- Where `toggleStar` stands when it first yields to the event loop. -/
inductive Started where
  /-- The function returned `value` without calling `fetch`. -/
  | returned (page : Page) (value : JSVal)
  /-- The function called `fetch(request)` in state `page` and awaits it. -/
  | awaiting (page : Page) (request : Request)

/-- Lines 3 to 22 of `toggleStar`, up to the call of `fetch`. -/
def toggleStarBegin (itemType itemId : JSString) (hasEvent : Bool) (page : Page) : Started :=
  let page := if hasEvent then { page with defaultPrevented := true } else page
  if !isLoggedIn page then
    .returned (showLoginModal page) .undefined
  else
    match page.button with
    | none =>
      .returned { page with console := page.console ++ [js "Star button not found"] } .undefined
    | some _ =>
      .awaiting (page.updButton (fun b => { b with disabled := true })) (starRequest itemType itemId)

/-- The `try` block of `toggleStar` from line 31 on, given the outcome of the
request: the page it leaves and its completion (a returned value or a thrown
error). -/
def toggleStarTry (host : Host) (out : FetchOutcome) (page : Page) : Page × Except JSError JSVal :=
  match out with
  | .rejected e => (page, .error e)
  | .response _ (.error e) => (page, .error e)
  | .response status (.ok data) =>
    if !statusOk status then
      match data.getProp host (js "error") with
      | .error e => (page, .error e)
      | .ok err =>
        match newError host (err.orElse (.str (js "HTTP error! status: " ++ natStr status))) with
        | .error e => (page, .error e)
        | .ok e => (page, .error e)
    else
      match data.getProp host (js "starred") with
      | .error e => (page, .error e)
      | .ok starred =>
        let page := page.updButton (applyStarred starred.truthy)
        match data.getProp host (js "star_count") with
        | .error e => (page, .error e)
        | .ok count =>
          match applyStarCount host count page with
          | .error e => (page, .error e)
          | .ok page =>
            match data.getProp host (js "message") with
            | .error e => (page, .error e)
            | .ok message =>
              match showFeedback host message starred.truthy page with
              | .error e => (page, .error e)
              | .ok page => (page, .ok data)

/-- The `catch` and `finally` blocks of `toggleStar` applied to the completion of
the `try` block. -/
def toggleStarSettle (r : Page × Except JSError JSVal) : Page × Except JSError JSVal :=
  let caught : Page × Except JSError JSVal :=
    match r with
    | (page, .ok v) => (page, .ok v)
    | (page, .error e) =>
      let page := { page with console := page.console ++ [js "Error toggling star:"] }
      let page := showToast (js "Failed to update star") page
      (page, .ok (.obj [(js "error", .str e.message)]))
  (caught.1.updButton (fun b => { b with disabled := false }), caught.2)

/-- The rest of `toggleStar` once the request of line 22 has settled. -/
def toggleStarResume (host : Host) (out : FetchOutcome) (page : Page) :
    Page × Except JSError JSVal :=
  toggleStarSettle (toggleStarTry host out page)

/-- The function `toggleStar`: the final page and the completion of the call. -/
def toggleStar (host : Host) (itemType itemId : JSString) (hasEvent : Bool) (page : Page)
    (out : FetchOutcome) : Page × Except JSError JSVal :=
  match toggleStarBegin itemType itemId hasEvent page with
  | .returned page value => (page, .ok value)
  | .awaiting page request =>
    toggleStarResume host out { page with requests := page.requests ++ [request] }

/-! ## document_preview.js -/

/-- The download link `#downloadBtn`. -/
structure DownloadBtn where
  href : JSString
  download : JSString
deriving DecidableEq

/-- The DOM regions `showDocumentPreview` reads and writes.  The four panels and
the modal always exist; the four display fields and the download link may be
missing from the page, and the source tests for them. -/
structure PreviewDOM where
  /-- The value of `previewContent.style.display`. -/
  contentDisplay : JSString
  /-- The value of `previewLoading.style.display`. -/
  loadingDisplay : JSString
  /-- The value of `previewError.style.display`. -/
  errorDisplay : JSString
  /-- The text of the error panel. -/
  errorText : JSString
  /-- The markup last assigned to `filePreview.innerHTML`. -/
  filePreview : JSString
  /-- Whether the modal is shown. -/
  modalShown : Bool
  title : Option JSString
  author : Option JSString
  date : Option JSString
  description : Option JSString
  downloadBtn : Option DownloadBtn
  /-- The first arguments of the `console.error` calls. -/
  console : List JSString
deriving DecidableEq

/-- An exception together with the DOM state in which it was thrown. -/
abbrev Thrown := PreviewDOM × JSError

/-- Lines 17 to 20: the reset of the preview surface. -/
def resetUI (dom : PreviewDOM) : PreviewDOM :=
  { dom with
    contentDisplay := js "none"
    loadingDisplay := js "block"
    errorDisplay := js "none"
    filePreview := [] }

/-- Lines 17 to 27, up to the call of `fetch`: the state in which the request is
awaited, and the requested URL. -/
def showDocumentPreviewBegin (docId : JSString) (dom : PreviewDOM) : PreviewDOM × JSString :=
  ({ resetUI dom with modalShown := true }, js "/document/preview/" ++ docId)

/-- Line 35. -/
def setTitle (host : Host) (doc : JSVal) (d : PreviewDOM) : Except Thrown PreviewDOM :=
  match d.title with
  | none => .ok d
  | some _ =>
    match doc.getProp host (js "title") with
    | .error e => .error (d, e)
    | .ok v =>
      match v.textContent host with
      | .error e => .error (d, e)
      | .ok t => .ok { d with title := some t }

/-- Line 36. -/
def setAuthor (host : Host) (doc : JSVal) (d : PreviewDOM) : Except Thrown PreviewDOM :=
  match d.author with
  | none => .ok d
  | some _ =>
    match doc.getProp host (js "author") with
    | .error e => .error (d, e)
    | .ok v =>
      match (v.orElse (.str (js "Unknown"))).textContent host with
      | .error e => .error (d, e)
      | .ok t => .ok { d with author := some t }

/-- Lines 37 to 40. -/
def setDate (host : Host) (doc : JSVal) (d : PreviewDOM) : Except Thrown PreviewDOM :=
  match d.date with
  | none => .ok d
  | some _ =>
    match doc.getProp host (js "created_at") with
    | .error e => .error (d, e)
    | .ok v =>
      match newDateText host v with
      | .error e => .error (d, e)
      | .ok t => .ok { d with date := some t }

/-- Line 41. -/
def setDescription (host : Host) (doc : JSVal) (d : PreviewDOM) : Except Thrown PreviewDOM :=
  match d.description with
  | none => .ok d
  | some _ =>
    match doc.getProp host (js "description") with
    | .error e => .error (d, e)
    | .ok v =>
      match (v.orElse (.str [])).textContent host with
      | .error e => .error (d, e)
      | .ok t => .ok { d with description := some t }

/-- The method call `v.split(sep)` on a truthy value `v`, where `callee` is the
source text of the callee: only strings have the method. -/
def splitCall (host : Host) (callee : JSString) (v : JSVal) (sep : Nat) :
    Except JSError (List JSString) :=
  match v with
  | .str s => .ok (split sep s)
  | _ => .error ⟨host.notFunctionMessage callee⟩

/-- The text a `DOMString` attribute receives from the result of `pop()`. -/
def popText (segments : List JSString) : JSString :=
  match pop segments with
  | some s => s
  | none => js "undefined"

/-- Lines 44 to 47. -/
def setDownload (host : Host) (doc : JSVal) (d : PreviewDOM) : Except Thrown PreviewDOM :=
  match d.downloadBtn with
  | none => .ok d
  | some btn =>
    match doc.getProp host (js "file_path") with
    | .error e => .error (d, e)
    | .ok path =>
      if !path.truthy then .ok d
      else
        match encodeCall host path with
        | .error e => .error (d, e)
        | .ok encoded =>
          let href := js "/uploads/" ++ encoded
          let d := { d with downloadBtn := some { btn with href := href } }
          match splitCall host (js "doc.file_path.split") path '/'.toNat with
          | .error e => .error (d, e)
          | .ok segments =>
            .ok { d with downloadBtn := some { href := href, download := popText segments } }

/-- The markup of lines 55 to 60. -/
def imageHTML (src alt : JSString) : JSString :=
  js "\n          <div class=\"text-center\">\n            <img src=\"/uploads/" ++
    src ++
    js "\" \n                 alt=\"" ++
    alt ++
    js "\" \n                 class=\"img-fluid rounded\">\n          </div>"

/-- The markup of lines 64 to 69. -/
def pdfHTML (src : JSString) : JSString :=
  js "\n          <div class=\"ratio ratio-16x9\">\n            <iframe src=\"/uploads/" ++
    src ++
    js "\" \n                    style=\"width: 100%; height: 100%; border: 1px solid #dee2e6; border-radius: 0.25rem;\">\n            </iframe>\n          </div>"

/-- The markup of lines 73 to 79. -/
def htmlHTML (src : JSString) : JSString :=
  js "\n          <div class=\"ratio ratio-16x9\">\n            <iframe src=\"/document/html/" ++
    src ++
    js "\" \n                    sandbox=\"allow-same-origin allow-scripts\"\n                    style=\"width: 100%; height: 100%; border: 1px solid #dee2e6; border-radius: 0.25rem;\">\n            </iframe>\n          </div>"

/-- The markup of lines 83 to 88. -/
def placeholderHTML (fileType : JSString) : JSString :=
  js "\n          <div class=\"text-center py-4\">\n            <i class=\"fas fa-file-alt fa-4x text-muted mb-3\"></i>\n            <p class=\"text-muted\">Preview not available for this file type</p>\n            <p class=\"small\">File type: " ++
    fileType ++
    js "</p>\n          </div>"

/-- Line 51: the expression
`doc.file_type || doc.file_path.split('.').pop().toLowerCase()`. -/
def resolveFileType (host : Host) (doc path : JSVal) : Except JSError JSVal :=
  match doc.getProp host (js "file_type") with
  | .error e => .error e
  | .ok fileType =>
    if fileType.truthy then .ok fileType
    else
      match splitCall host (js "doc.file_path.split") path '.'.toNat with
      | .error e => .error e
      | .ok segments =>
        match pop segments with
        | none => .error ⟨host.nullPropertyMessage (js "toLowerCase")⟩
        | some ext => .ok (.str (toLowerCase host ext))

/-- Lines 53 to 89: the template literal chosen for a resolved file type, with
the conversions its interpolations make. -/
def previewHTML (host : Host) (doc fileType path : JSVal) : Except JSError JSString :=
  if fileType.includedIn [js "jpg", js "jpeg", js "png", js "gif"] then
    match encodeCall host path with
    | .error e => .error e
    | .ok src =>
      match doc.getProp host (js "title") with
      | .error e => .error e
      | .ok title =>
        match title.toStr host with
        | .error e => .error e
        | .ok alt => .ok (imageHTML src alt)
  else if fileType.strictEqStr (js "pdf") then
    match encodeCall host path with
    | .error e => .error e
    | .ok src => .ok (pdfHTML src)
  else if fileType.includedIn [js "html", js "htm"] then
    match encodeCall host path with
    | .error e => .error e
    | .ok src => .ok (htmlHTML src)
  else
    match fileType.toStr host with
    | .error e => .error e
    | .ok t => .ok (placeholderHTML t)

/-- Lines 50 to 90. -/
def renderPreview (host : Host) (doc : JSVal) (d : PreviewDOM) : Except Thrown PreviewDOM :=
  match doc.getProp host (js "file_path") with
  | .error e => .error (d, e)
  | .ok path =>
    if !path.truthy then .ok d
    else
      match resolveFileType host doc path with
      | .error e => .error (d, e)
      | .ok fileType =>
        match previewHTML host doc fileType path with
        | .error e => .error (d, e)
        | .ok markup => .ok { d with filePreview := markup }

/-- Lines 93 and 94. -/
def showContent (d : PreviewDOM) : PreviewDOM :=
  { d with loadingDisplay := js "none", contentDisplay := js "block" }

/-- Lines 35 to 94: what the handler does with a parsed body. -/
def applyDocument (host : Host) (doc : JSVal) (d : PreviewDOM) : Except Thrown PreviewDOM := do
  let d ← setTitle host doc d
  let d ← setAuthor host doc d
  let d ← setDate host doc d
  let d ← setDescription host doc d
  let d ← setDownload host doc d
  let d ← renderPreview host doc d
  pure (showContent d)

/-- The `try` block from line 28 on, given the outcome of the request. -/
def showDocumentPreviewTry (host : Host) (out : FetchOutcome) (d : PreviewDOM) :
    Except Thrown PreviewDOM :=
  match out with
  | .rejected e => .error (d, e)
  | .response status json =>
    if !statusOk status then
      .error (d, ⟨js "HTTP error! status: " ++ natStr status⟩)
    else
      match json with
      | .error e => .error (d, e)
      | .ok doc => applyDocument host doc d

/-- The text of line 99. -/
def errorPanelText (e : JSError) : JSString :=
  js "Failed to load document preview. " ++
    (if e.message.isEmpty then js "Please try again later." else e.message)

/-- The `catch` block, lines 97 to 100. -/
def showDocumentPreviewCatch (t : Thrown) : PreviewDOM :=
  { t.1 with
    console := t.1.console ++ [js "Error loading document preview:"]
    loadingDisplay := js "none"
    errorText := errorPanelText t.2
    errorDisplay := js "block" }

/-- The function `showDocumentPreview`: the final state of the preview surface. -/
def showDocumentPreview (host : Host) (docId : JSString) (dom : PreviewDOM)
    (out : FetchOutcome) : PreviewDOM :=
  match showDocumentPreviewTry host out (showDocumentPreviewBegin docId dom).1 with
  | .ok d => d
  | .error t => showDocumentPreviewCatch t

/-! ## Reading the assigned markup

`filePreview.innerHTML = markup` hands `markup` to the HTML parser.  The elements
it creates are the start tags the tokenizer emits, so the claims about image and
frame elements are stated over the tokenizer below.  It follows the tokenizer
states of the HTML standard for tags, attributes, comments and raw-text elements,
and the renaming of `image` to `img` by the tree builder; character references
are left undecoded, and a `<!` construct other than a comment is read up to the
next `>`, as a `DOCTYPE` or a bogus comment is. -/

/-- A start tag: its name and its attributes, in source order. -/
structure Tag where
  name : JSString
  attrs : List (JSString × JSString)
deriving DecidableEq

/-- The tag token under construction. -/
structure OpenTag where
  isEnd : Bool
  name : JSString
  attrs : List (JSString × JSString)
deriving DecidableEq

/-- States of the tokenizer. -/
inductive TokState where
  | data
  | tagOpen
  | endTagOpen
  | tagName (t : OpenTag)
  | beforeAttrName (t : OpenTag)
  | attrName (t : OpenTag) (n : JSString)
  | afterAttrName (t : OpenTag) (n : JSString)
  | beforeAttrValue (t : OpenTag) (n : JSString)
  | attrValueDQ (t : OpenTag) (n v : JSString)
  | attrValueSQ (t : OpenTag) (n v : JSString)
  | attrValueUQ (t : OpenTag) (n v : JSString)
  | afterAttrValueQ (t : OpenTag)
  | selfClosing (t : OpenTag)
  | bogusComment
  | markupDeclOpen
  | markupDeclDash
  | commentStart
  | commentStartDash
  | comment
  | commentEndDash
  | commentEnd
  | commentEndBang
  | rawText (name : JSString)
  | rawLessThan (name : JSString)
  | rawEndTagOpen (name : JSString)
  | rawEndTagName (name buf : JSString)
deriving DecidableEq

/-- The tokenizer: its state and the start tags emitted so far. -/
structure Tokenizer where
  state : TokState
  startTags : List Tag
deriving DecidableEq

/-- HTML whitespace: tab, line feed, form feed, carriage return, space. -/
def isHtmlSpace (c : Nat) : Bool :=
  c = 9 || c = 10 || c = 12 || c = 13 || c = ' '.toNat

/-- Elements whose content the tokenizer reads as text up to the matching end tag. -/
def rawTextNames : List JSString :=
  [js "title", js "textarea", js "style", js "xmp", js "iframe",
   js "noembed", js "noframes", js "noscript", js "script"]

/-- Finish an attribute: a name already on the tag is dropped. -/
def OpenTag.addAttr (t : OpenTag) (n v : JSString) : OpenTag :=
  if t.attrs.any (fun a => a.1 == n) then t else { t with attrs := t.attrs ++ [(n, v)] }

/-- Emit the tag token on `>`; the tree builder creates an `img` element for a
start tag named `image`. -/
def emitTag (t : OpenTag) (tags : List Tag) : Tokenizer :=
  if t.isEnd then ⟨.data, tags⟩
  else
    ⟨if t.name ∈ rawTextNames then .rawText t.name else .data,
      tags ++ [⟨if t.name = js "image" then js "img" else t.name, t.attrs⟩]⟩

/-- The before-attribute-name state. -/
def onBeforeAttrName (t : OpenTag) (tags : List Tag) (c : Nat) : Tokenizer :=
  if isHtmlSpace c then ⟨.beforeAttrName t, tags⟩
  else if c = '/'.toNat then ⟨.selfClosing t, tags⟩
  else if c = '>'.toNat then emitTag t tags
  else ⟨.attrName t [asciiLower c], tags⟩

/-- The comment state. -/
def onComment (tags : List Tag) (c : Nat) : Tokenizer :=
  if c = '-'.toNat then ⟨.commentEndDash, tags⟩ else ⟨.comment, tags⟩

/-- The raw-text state. -/
def onRawText (name : JSString) (tags : List Tag) (c : Nat) : Tokenizer :=
  if c = '<'.toNat then ⟨.rawLessThan name, tags⟩ else ⟨.rawText name, tags⟩

/-- One step of the tokenizer. -/
def tokStep (k : Tokenizer) (c : Nat) : Tokenizer :=
  match k.state with
  | .data => if c = '<'.toNat then ⟨.tagOpen, k.startTags⟩ else ⟨.data, k.startTags⟩
  | .tagOpen =>
    if c = '!'.toNat then ⟨.markupDeclOpen, k.startTags⟩
    else if c = '?'.toNat then ⟨.bogusComment, k.startTags⟩
    else if c = '/'.toNat then ⟨.endTagOpen, k.startTags⟩
    else if isAsciiAlpha c then ⟨.tagName ⟨false, [asciiLower c], []⟩, k.startTags⟩
    else if c = '<'.toNat then ⟨.tagOpen, k.startTags⟩
    else ⟨.data, k.startTags⟩
  | .endTagOpen =>
    if isAsciiAlpha c then ⟨.tagName ⟨true, [asciiLower c], []⟩, k.startTags⟩
    else if c = '>'.toNat then ⟨.data, k.startTags⟩
    else ⟨.bogusComment, k.startTags⟩
  | .tagName t =>
    if isHtmlSpace c then ⟨.beforeAttrName t, k.startTags⟩
    else if c = '/'.toNat then ⟨.selfClosing t, k.startTags⟩
    else if c = '>'.toNat then emitTag t k.startTags
    else ⟨.tagName { t with name := t.name ++ [asciiLower c] }, k.startTags⟩
  | .beforeAttrName t => onBeforeAttrName t k.startTags c
  | .attrName t n =>
    if isHtmlSpace c then ⟨.afterAttrName t n, k.startTags⟩
    else if c = '/'.toNat then ⟨.selfClosing (t.addAttr n []), k.startTags⟩
    else if c = '>'.toNat then emitTag (t.addAttr n []) k.startTags
    else if c = '='.toNat then ⟨.beforeAttrValue t n, k.startTags⟩
    else ⟨.attrName t (n ++ [asciiLower c]), k.startTags⟩
  | .afterAttrName t n =>
    if isHtmlSpace c then ⟨.afterAttrName t n, k.startTags⟩
    else if c = '/'.toNat then ⟨.selfClosing (t.addAttr n []), k.startTags⟩
    else if c = '='.toNat then ⟨.beforeAttrValue t n, k.startTags⟩
    else if c = '>'.toNat then emitTag (t.addAttr n []) k.startTags
    else ⟨.attrName (t.addAttr n []) [asciiLower c], k.startTags⟩
  | .beforeAttrValue t n =>
    if isHtmlSpace c then ⟨.beforeAttrValue t n, k.startTags⟩
    else if c = 34 then ⟨.attrValueDQ t n [], k.startTags⟩
    else if c = 39 then ⟨.attrValueSQ t n [], k.startTags⟩
    else if c = '>'.toNat then emitTag (t.addAttr n []) k.startTags
    else ⟨.attrValueUQ t n [c], k.startTags⟩
  | .attrValueDQ t n v =>
    if c = 34 then ⟨.afterAttrValueQ (t.addAttr n v), k.startTags⟩
    else ⟨.attrValueDQ t n (v ++ [c]), k.startTags⟩
  | .attrValueSQ t n v =>
    if c = 39 then ⟨.afterAttrValueQ (t.addAttr n v), k.startTags⟩
    else ⟨.attrValueSQ t n (v ++ [c]), k.startTags⟩
  | .attrValueUQ t n v =>
    if isHtmlSpace c then ⟨.beforeAttrName (t.addAttr n v), k.startTags⟩
    else if c = '>'.toNat then emitTag (t.addAttr n v) k.startTags
    else ⟨.attrValueUQ t n (v ++ [c]), k.startTags⟩
  | .afterAttrValueQ t =>
    if isHtmlSpace c then ⟨.beforeAttrName t, k.startTags⟩
    else if c = '/'.toNat then ⟨.selfClosing t, k.startTags⟩
    else if c = '>'.toNat then emitTag t k.startTags
    else onBeforeAttrName t k.startTags c
  | .selfClosing t =>
    if c = '>'.toNat then emitTag t k.startTags else onBeforeAttrName t k.startTags c
  | .bogusComment =>
    if c = '>'.toNat then ⟨.data, k.startTags⟩ else ⟨.bogusComment, k.startTags⟩
  | .markupDeclOpen =>
    if c = '-'.toNat then ⟨.markupDeclDash, k.startTags⟩
    else if c = '>'.toNat then ⟨.data, k.startTags⟩
    else ⟨.bogusComment, k.startTags⟩
  | .markupDeclDash =>
    if c = '-'.toNat then ⟨.commentStart, k.startTags⟩
    else if c = '>'.toNat then ⟨.data, k.startTags⟩
    else ⟨.bogusComment, k.startTags⟩
  | .commentStart =>
    if c = '-'.toNat then ⟨.commentStartDash, k.startTags⟩
    else if c = '>'.toNat then ⟨.data, k.startTags⟩
    else onComment k.startTags c
  | .commentStartDash =>
    if c = '-'.toNat then ⟨.commentEnd, k.startTags⟩
    else if c = '>'.toNat then ⟨.data, k.startTags⟩
    else ⟨.comment, k.startTags⟩
  | .comment => onComment k.startTags c
  | .commentEndDash =>
    if c = '-'.toNat then ⟨.commentEnd, k.startTags⟩ else ⟨.comment, k.startTags⟩
  | .commentEnd =>
    if c = '>'.toNat then ⟨.data, k.startTags⟩
    else if c = '!'.toNat then ⟨.commentEndBang, k.startTags⟩
    else if c = '-'.toNat then ⟨.commentEnd, k.startTags⟩
    else ⟨.comment, k.startTags⟩
  | .commentEndBang =>
    if c = '-'.toNat then ⟨.commentEndDash, k.startTags⟩
    else if c = '>'.toNat then ⟨.data, k.startTags⟩
    else ⟨.comment, k.startTags⟩
  | .rawText name => onRawText name k.startTags c
  | .rawLessThan name =>
    if c = '/'.toNat then ⟨.rawEndTagOpen name, k.startTags⟩ else onRawText name k.startTags c
  | .rawEndTagOpen name =>
    if isAsciiAlpha c then ⟨.rawEndTagName name [asciiLower c], k.startTags⟩
    else onRawText name k.startTags c
  | .rawEndTagName name buf =>
    if isAsciiAlpha c then ⟨.rawEndTagName name (buf ++ [asciiLower c]), k.startTags⟩
    else if buf = name && isHtmlSpace c then ⟨.beforeAttrName ⟨true, buf, []⟩, k.startTags⟩
    else if buf = name && c = '/'.toNat then ⟨.selfClosing ⟨true, buf, []⟩, k.startTags⟩
    else if buf = name && c = '>'.toNat then ⟨.data, k.startTags⟩
    else onRawText name k.startTags c

/-- The start tags of a piece of markup, in order; a tag cut off by the end of
the markup is not emitted. -/
def startTags (markup : JSString) : List Tag :=
  (markup.foldl tokStep ⟨.data, []⟩).startTags

/-- The elements named `name` that the markup creates. -/
def elementsNamed (name : JSString) (markup : JSString) : List Tag :=
  (startTags markup).filter (fun t => t.name == name)

/-- The value of attribute `n` of a tag. -/
def Tag.attr (t : Tag) (n : JSString) : Option JSString := t.attrs.lookup n

/-! ## Reference notions used in the statements -/

/-- The text after the last occurrence of `sep` in `s`; the whole of `s` when
`sep` does not occur. -/
def afterLast (sep : Nat) (s : JSString) : JSString :=
  (s.reverse.takeWhile (fun c => c != sep)).reverse

/-- The resolved file type of a record whose `file_path` is the string `path`:
the `file_type` field when it is truthy, otherwise the lower-cased text after the
last `.` of `path`. -/
def resolvedType (host : Host) (doc : JSVal) (path : JSString) : JSVal :=
  if (doc.get (js "file_type")).truthy then doc.get (js "file_type")
  else .str (toLowerCase host (afterLast '.'.toNat path))

/-- Whether the four display fields of a record convert to text: `title`,
`author` and `description` by `ToString`, `created_at` by `ToPrimitive`. -/
def fieldsConvertible (doc : JSVal) : Bool :=
  (doc.get (js "title")).convertible && (doc.get (js "author")).convertible &&
  (doc.get (js "created_at")).convertible && (doc.get (js "description")).convertible

/-- The display fields after a record whose fields convert has been applied to
them. -/
def withFields (host : Host) (doc : JSVal) (d : PreviewDOM) : PreviewDOM :=
  { d with
    title := d.title.map (fun _ => (doc.get (js "title")).nodeText)
    author := d.author.map (fun _ =>
      ((doc.get (js "author")).orElse (.str (js "Unknown"))).nodeText)
    date := d.date.map (fun _ => host.toLocaleDateString (doc.get (js "created_at")))
    description := d.description.map (fun _ =>
      ((doc.get (js "description")).orElse (.str [])).nodeText) }

/-- The message of the error raised by a failed preview request: the rejection's
message when `fetch` rejects, `HTTP error! status: s` for a non-OK status `s`,
the parse error's message when the body of an OK response is not JSON.  A
response that is OK and parses raises none. -/
def failureMessage : FetchOutcome → Option JSString
  | .rejected e => some e.message
  | .response status json =>
    if !statusOk status then some (js "HTTP error! status: " ++ natStr status)
    else
      match json with
      | .error e => some e.message
      | .ok _ => none

/-- The message of the error the `try` block of `toggleStar` raises before it
touches the button, `none` when it gets as far as the button: the rejection's or
the parse error's message, the engine's message when the body is `null`, and for
a non-OK status the text of the body's truthy `error` field (the engine's message
when that field does not convert) or else `HTTP error! status: s`. -/
def starFailure (host : Host) : FetchOutcome → Option JSString
  | .rejected e => some e.message
  | .response _ (.error e) => some e.message
  | .response status (.ok data) =>
    if data.isNullish then
      some (host.nullPropertyMessage (if statusOk status then js "starred" else js "error"))
    else if statusOk status then none
    else if (data.get (js "error")).truthy then
      some (if (data.get (js "error")).convertible then (data.get (js "error")).text
        else host.notPrimitiveMessage)
    else some (js "HTTP error! status: " ++ natStr status)

/-- The counter text after an OK response with a body that is not `null`: the
text of `star_count` when the field is there, the button has a counter and the
value converts; the old text otherwise. -/
def counterAfter (count : JSVal) (b : StarButton) : Option JSString :=
  if count.isDefined && b.counter.isSome && count.convertible then some count.nodeText
  else b.counter

/-- Whether the conversions `toggleStar` makes after an OK response complete:
that of `star_count` by the counter's setter, made when the field is there and the
button has a counter, and that of a truthy `message` by `alert`. -/
def conversionsComplete (data : JSVal) (b : StarButton) : Bool :=
  (!((data.get (js "star_count")).isDefined && b.counter.isSome) ||
    (data.get (js "star_count")).convertible) &&
  (!(data.get (js "message")).truthy || (data.get (js "message")).convertible)

/-- The toast shown after a successful toggle. -/
def successToast (data : JSVal) : JSString :=
  if (data.get (js "message")).truthy then (data.get (js "message")).text
  else if (data.get (js "starred")).truthy then js "Added to your stars"
  else js "Removed from your stars"

/-- The page in the state in which `toggleStar` awaits its request, for a page on
which it found the button `b`. -/
def awaitingPage (itemType itemId : JSString) (hasEvent : Bool) (page : Page) (b : StarButton) :
    Page :=
  { page with
    defaultPrevented := hasEvent || page.defaultPrevented
    button := some { b with disabled := true }
    requests := page.requests ++ [starRequest itemType itemId] }

/-! ## Sample inputs -/

/-- A host in the style of V8 with a fixed date text. -/
def sampleHost : Host where
  toLocaleDateString := fun _ => js "1/2/2024"
  toLowerCase := fun s => s
  nullPropertyMessage := fun k => js "Cannot read properties of null (reading " ++ k ++ js ")"
  notFunctionMessage := fun k => k ++ js " is not a function"
  notPrimitiveMessage := js "Cannot convert object to primitive value"
  uriErrorMessage := js "URI malformed"

/-- A preview surface that still shows an earlier document. -/
def sampleDOM : PreviewDOM where
  contentDisplay := js "block"
  loadingDisplay := js "none"
  errorDisplay := js "none"
  errorText := []
  filePreview := js "<p>old</p>"
  modalShown := false
  title := some (js "Old title")
  author := some (js "Old author")
  date := some (js "1/1/2020")
  description := some (js "Old description")
  downloadBtn := some ⟨js "/uploads/old.txt", js "old.txt"⟩
  console := []

/-- The number 1. -/
def one : JSVal := .num ⟨js "1", true⟩

/-- The object `{"toString": 1}`, which `ToString` cannot convert. -/
def noText : JSVal := .obj [(js "toString", one)]

/-- A record with an upper-case extension and no `file_type`. -/
def samplePdfDoc : JSVal :=
  .obj [(js "title", .str (js "Report")),
        (js "created_at", .str (js "2024-01-02")),
        (js "file_path", .str (js "docs/report.PDF"))]

/-- A record whose `file_type` field is present and empty. -/
def emptyTypeDoc : JSVal :=
  .obj [(js "title", .str (js "Report")),
        (js "file_path", .str (js "docs/report.pdf")),
        (js "file_type", .str [])]

/-- A record of type `png` whose title closes the `alt` attribute and opens a
second image tag. -/
def quoteTitleDoc : JSVal :=
  .obj [(js "title", .str (js "\"><img src=\"x")),
        (js "file_path", .str (js "a.png")),
        (js "file_type", .str (js "png"))]

/-- A record without `file_type` whose file name has markup for its extension. -/
def markupExtensionDoc : JSVal :=
  .obj [(js "title", .str (js "Report")),
        (js "file_path", .str (js "report.<img src=x>"))]

/-- A record whose `file_path` is a number. -/
def numericPathDoc : JSVal :=
  .obj [(js "title", .str (js "Report")), (js "file_path", .num ⟨js "5", true⟩)]

/-- A record whose title is an object that does not convert to text. -/
def noTextTitleDoc : JSVal :=
  .obj [(js "title", noText), (js "file_path", .str (js "a/b.pdf"))]

/-- A record whose author is an object that does not convert to text. -/
def noTextAuthorDoc : JSVal :=
  .obj [(js "title", .str (js "Report")), (js "author", noText),
        (js "file_path", .str (js "a/b.pdf"))]

/-- A record whose `file_path` begins with an unpaired surrogate. -/
def surrogatePathDoc : JSVal :=
  .obj [(js "title", .str (js "Report")), (js "file_path", .str (0xD800 :: js ".pdf"))]

/-- A record whose `file_type` is an object that does not convert to text. -/
def noTextTypeDoc : JSVal :=
  .obj [(js "title", .str (js "Report")), (js "file_path", .str (js "a/b.bin")),
        (js "file_type", noText)]

/-- A record without `file_path`. -/
def noPathDoc : JSVal := .obj [(js "title", .str (js "Report"))]

/-- An unstarred button with an outline icon, a label and a counter. -/
def sampleButton : StarButton where
  disabled := false
  classList := [js "star-btn"]
  icon := some [js "far", js "fa-star"]
  label := some (js " Star")
  counter := some (js "3")

/-- A page of a signed-in user. -/
def samplePage : Page where
  userId := some (js "42")
  pathname := "/documents/7".toList
  href := none
  button := some sampleButton
  requests := []
  alerts := []
  console := []
  defaultPrevented := false

/-- A response body that stars the item and reports four stars. -/
def starredData : JSVal :=
  .obj [(js "starred", .bool true), (js "star_count", .num ⟨js "4", true⟩)]

/-- A response body whose `star_count` does not convert to text. -/
def noTextCountData : JSVal :=
  .obj [(js "starred", .bool true), (js "star_count", noText)]

/-- A response body whose `message` does not convert to text. -/
def noTextMessageData : JSVal :=
  .obj [(js "starred", .bool true), (js "message", noText)]

/-- A response body whose `error` does not convert to text. -/
def noTextErrorData : JSVal := .obj [(js "error", noText)]

/-- A page rendered without a user: the marker holds the sentinel. -/
def anonymousPage : Page := { samplePage with userId := some (js "None") }

/-- A page whose body has no `data-user-id` attribute. -/
def unmarkedPage : Page := { samplePage with userId := none }

/-- A page whose star icon carries neither `far` nor `fas`. -/
def plainIconPage : Page :=
  { samplePage with button := some { sampleButton with icon := some [js "fa-star"] } }

/-! # Proofs -/

/-! ## Lemmas on strings -/

theorem split_ne_nil (sep : Nat) (s : JSString) : split sep s ≠ [] := by
  cases s with
  | nil => simp [split]
  | cons c cs =>
    simp only [split]
    split
    · simp
    · split <;> simp

theorem split_of_not_mem (sep : Nat) (s : JSString) (h : sep ∉ s) : split sep s = [s] := by
  induction s with
  | nil => simp [split]
  | cons c cs ih =>
    have hc : ¬ c = sep := fun e => h (by simp [e])
    have hcs : sep ∉ cs := fun e => h (by simp [e])
    simp [split, hc, ih hcs]

theorem not_mem_of_split_length_one (sep : Nat) (s : JSString)
    (h : (split sep s).length = 1) : sep ∉ s := by
  induction s with
  | nil => simp
  | cons c cs ih =>
    by_cases hc : c = sep
    · have hne := split_ne_nil sep cs
      simp only [split, hc, if_true, List.length_cons] at h
      have : (split sep cs).length = 0 := by omega
      exact absurd (List.length_eq_zero.mp this) hne
    · simp only [split, hc, if_false] at h
      rcases hs : split sep cs with _ | ⟨seg, segs⟩
      · exact absurd hs (split_ne_nil sep cs)
      · rw [hs] at h
        have h1 : (split sep cs).length = 1 := by rw [hs]; simpa using h
        have := ih h1
        simp [this, Ne.symm hc]

theorem afterLast_of_not_mem (sep : Nat) (s : JSString) (h : sep ∉ s) : afterLast sep s = s := by
  unfold afterLast
  rw [List.takeWhile_eq_self_iff.mpr, List.reverse_reverse]
  intro c hc
  have : c ∈ s := by simpa using hc
  simp only [bne_iff_ne, ne_eq]
  rintro rfl
  exact h this

theorem afterLast_append_sep (sep : Nat) (pre s : JSString) (h : sep ∉ s) :
    afterLast sep (pre ++ sep :: s) = s := by
  unfold afterLast
  have : (pre ++ sep :: s).reverse = s.reverse ++ sep :: pre.reverse := by simp
  rw [this, List.takeWhile_append_of_pos]
  · simp
  · intro c hc
    have hcs : c ∈ s := by simpa using hc
    simp only [bne_iff_ne, ne_eq]
    rintro rfl
    exact h hcs

theorem afterLast_not_mem (sep : Nat) (s : JSString) : sep ∉ afterLast sep s := by
  unfold afterLast
  intro h
  have h2 := List.mem_takeWhile_imp (List.mem_reverse.mp h)
  simp at h2

theorem afterLast_suffix (sep : Nat) (s : JSString) :
    s = afterLast sep s ∨ ∃ pre, s = pre ++ sep :: afterLast sep s := by
  by_cases h : sep ∈ s
  · right
    have hsplit := List.takeWhile_append_dropWhile (fun c => c != sep) s.reverse
    have hd : s.reverse.dropWhile (fun c => c != sep) ≠ [] := by
      intro hnil
      rw [hnil, List.append_nil] at hsplit
      have : sep ∈ s.reverse.takeWhile (fun c => c != sep) := by
        rw [hsplit]; simpa using h
      have := List.mem_takeWhile_imp this
      simp at this
    obtain ⟨x, rest, hx⟩ := List.exists_cons_of_ne_nil hd
    have hx0 : x = sep := by
      have := List.head_dropWhile_not (fun c => c != sep) s.reverse hd
      simp only [hx, List.head_cons] at this
      simpa using this
    subst hx0
    refine ⟨rest.reverse, ?_⟩
    rw [hx] at hsplit
    have hrev := congrArg List.reverse hsplit
    simp only [List.reverse_append, List.reverse_cons, List.reverse_reverse,
      List.append_assoc, List.singleton_append] at hrev
    exact hrev.symm
  · left
    exact (afterLast_of_not_mem sep s h).symm

theorem pop_split (sep : Nat) (s : JSString) : pop (split sep s) = some (afterLast sep s) := by
  induction s with
  | nil => simp [split, pop, afterLast]
  | cons c cs ih =>
    by_cases hm : sep ∈ cs
    · have hal : afterLast sep (c :: cs) = afterLast sep cs := by
        obtain ⟨pre, hpre⟩ := (afterLast_suffix sep cs).resolve_left (by
          intro e; exact afterLast_not_mem sep cs (e ▸ hm))
        have h1 : c :: cs = (c :: pre) ++ sep :: afterLast sep cs := by
          rw [List.cons_append, ← hpre]
        conv_lhs => rw [h1]
        exact afterLast_append_sep sep (c :: pre) _ (afterLast_not_mem sep cs)
      rw [hal, ← ih]
      simp only [split, pop]
      by_cases hc : c = sep
      · simp only [hc, if_true]
        rcases hs : split sep cs with _ | ⟨seg, segs⟩
        · exact absurd hs (split_ne_nil sep cs)
        · simp [List.getLast?_cons_cons]
      · simp only [hc, if_false]
        rcases hs : split sep cs with _ | ⟨seg, segs⟩
        · exact absurd hs (split_ne_nil sep cs)
        · rcases segs with _ | ⟨seg2, segs2⟩
          · -- a single segment contradicts `sep ∈ cs`
            exact absurd hm (not_mem_of_split_length_one sep cs (by rw [hs]; rfl))
          · simp [List.getLast?_cons_cons]
    · rw [split_of_not_mem sep cs hm] at ih
      by_cases hc : c = sep
      · subst hc
        have : afterLast c (c :: cs) = cs := afterLast_append_sep c [] cs hm
        simp [split, pop, this, split_of_not_mem c cs hm]
      · have hn : sep ∉ c :: cs := by simp [hm, Ne.symm hc]
        simp [split_of_not_mem sep _ hn, pop, afterLast_of_not_mem sep _ hn]


/-! ## Lemmas on `encodeURIComponent` -/

theorem hexDigit_mem (n : Nat) : hexDigit n ∈ js "0123456789ABCDEF" := by
  unfold hexDigit
  by_cases h : n < 16
  · interval_cases n <;> decide
  · rw [List.getD_eq_default _ _ (by
      have : (js "0123456789ABCDEF").length = 16 := by decide
      omega)]
    decide

theorem percentCodePoint_no_quote (n : Nat) : 34 ∉ percentCodePoint n := by
  intro h
  simp only [percentCodePoint, List.mem_flatMap] at h
  obtain ⟨b, -, hb⟩ := h
  simp only [percentByte, List.mem_cons, List.mem_singleton, List.not_mem_nil, or_false] at hb
  have hx : ∀ m, 34 ≠ hexDigit m := by
    intro m e
    have := hexDigit_mem m
    rw [← e] at this
    revert this
    decide
  rcases hb with hb | hb | hb
  · revert hb; decide
  · exact hx _ hb
  · exact hx _ hb

theorem encodeUnits_no_quote (n : Nat) :
    ∀ (s r : JSString), s.length ≤ n → encodeUnits s = some r → 34 ∉ r := by
  induction n with
  | zero =>
    intro s r hlen h
    have : s = [] := List.length_eq_zero.mp (by omega)
    subst this
    simp [encodeUnits] at h
    subst h
    simp
  | succ n ih =>
    intro s r hlen h
    match s, h with
    | [], h =>
      simp [encodeUnits] at h
      subst h
      simp
    | [u], h =>
      simp only [encodeUnits] at h
      split at h
      · rename_i hu
        cases h
        simp only [List.mem_singleton]
        rintro rfl
        revert hu
        decide
      · split at h
        · cases h
        · cases h
          exact percentCodePoint_no_quote u
    | u :: l :: rest, h =>
      simp only [encodeUnits] at h
      have hlen1 : (l :: rest).length ≤ n := by simp at hlen ⊢; omega
      have hlen2 : rest.length ≤ n := by simp at hlen ⊢; omega
      split at h
      · rename_i hu
        cases hr : encodeUnits (l :: rest) with
        | none => simp [hr] at h
        | some r' =>
          simp only [hr, Option.map, Option.some.injEq] at h
          subst h
          simp only [List.mem_cons, not_or]
          refine ⟨?_, ih _ _ hlen1 hr⟩
          rintro rfl
          revert hu
          decide
      · split at h
        · split at h
          · cases hr : encodeUnits rest with
            | none => simp [hr] at h
            | some r' =>
              simp only [hr, Option.map, Option.some.injEq] at h
              subst h
              simp only [List.mem_append, not_or]
              exact ⟨percentCodePoint_no_quote _, ih _ _ hlen2 hr⟩
          · cases h
        · split at h
          · cases h
          · cases hr : encodeUnits (l :: rest) with
            | none => simp [hr] at h
            | some r' =>
              simp only [hr, Option.map, Option.some.injEq] at h
              subst h
              simp only [List.mem_append, not_or]
              exact ⟨percentCodePoint_no_quote _, ih _ _ hlen1 hr⟩

theorem encodeURIComponent_no_quote (host : Host) (s r : JSString)
    (h : encodeURIComponent host s = .ok r) : 34 ∉ r := by
  unfold encodeURIComponent at h
  cases hr : encodeUnits s with
  | none => simp [hr] at h
  | some r' =>
    simp only [hr, Except.ok.injEq] at h
    subst h
    exact encodeUnits_no_quote s.length s r' (le_refl _) hr

/-! ## Lemmas on the tokenizer -/

theorem foldl_attrValueDQ (s : JSString) (t : OpenTag) (n v : JSString) (tags : List Tag)
    (h : 34 ∉ s) :
    s.foldl tokStep ⟨.attrValueDQ t n v, tags⟩ = ⟨.attrValueDQ t n (v ++ s), tags⟩ := by
  induction s generalizing v with
  | nil => simp
  | cons c cs ih =>
    have hc : ¬ c = 34 := fun e => h (by simp [e])
    have hcs : 34 ∉ cs := fun e => h (by simp [e])
    simp only [List.foldl_cons, tokStep, hc, if_false]
    rw [ih _ hcs]
    simp

set_option maxRecDepth 100000 in
theorem startTags_imageHTML (src alt : JSString) (hs : 34 ∉ src) (ha : 34 ∉ alt) :
    startTags (imageHTML src alt) =
      [⟨js "div", [(js "class", js "text-center")]⟩,
       ⟨js "img", [(js "src", js "/uploads/" ++ src), (js "alt", alt),
          (js "class", js "img-fluid rounded")]⟩] := by
  have h1 : (js "\n          <div class=\"text-center\">\n            <img src=\"/uploads/").foldl
      tokStep ⟨.data, []⟩ =
      ⟨.attrValueDQ ⟨false, js "img", []⟩ (js "src") (js "/uploads/"),
        [⟨js "div", [(js "class", js "text-center")]⟩]⟩ := by decide
  have h2 : ∀ (v : JSString) (tags : List Tag),
      (js "\" \n                 alt=\"").foldl tokStep
        ⟨.attrValueDQ ⟨false, js "img", []⟩ (js "src") v, tags⟩ =
      ⟨.attrValueDQ ⟨false, js "img", [(js "src", v)]⟩ (js "alt") [], tags⟩ := by
    intro v tags; rfl
  have h3 : ∀ (v w : JSString) (tags : List Tag),
      (js "\" \n                 class=\"img-fluid rounded\">\n          </div>").foldl tokStep
        ⟨.attrValueDQ ⟨false, js "img", [(js "src", v)]⟩ (js "alt") w, tags⟩ =
      ⟨.data, tags ++ [⟨js "img", [(js "src", v), (js "alt", w),
          (js "class", js "img-fluid rounded")]⟩]⟩ := by
    intro v w tags; rfl
  unfold startTags imageHTML
  rw [List.foldl_append, List.foldl_append, List.foldl_append, List.foldl_append, h1,
    foldl_attrValueDQ _ _ _ _ _ hs, h2, foldl_attrValueDQ _ _ _ _ _ ha, h3]
  rfl

set_option maxRecDepth 100000 in
theorem startTags_pdfHTML (src : JSString) (hs : 34 ∉ src) :
    startTags (pdfHTML src) =
      [⟨js "div", [(js "class", js "ratio ratio-16x9")]⟩,
       ⟨js "iframe", [(js "src", js "/uploads/" ++ src),
          (js "style",
            js "width: 100%; height: 100%; border: 1px solid #dee2e6; border-radius: 0.25rem;")]⟩] := by
  have h1 : (js "\n          <div class=\"ratio ratio-16x9\">\n            <iframe src=\"/uploads/").foldl
      tokStep ⟨.data, []⟩ =
      ⟨.attrValueDQ ⟨false, js "iframe", []⟩ (js "src") (js "/uploads/"),
        [⟨js "div", [(js "class", js "ratio ratio-16x9")]⟩]⟩ := by decide
  have h2 : ∀ (v : JSString) (tags : List Tag),
      (js "\" \n                    style=\"width: 100%; height: 100%; border: 1px solid #dee2e6; border-radius: 0.25rem;\">\n            </iframe>\n          </div>").foldl tokStep
        ⟨.attrValueDQ ⟨false, js "iframe", []⟩ (js "src") v, tags⟩ =
      ⟨.data, tags ++ [⟨js "iframe", [(js "src", v),
          (js "style",
            js "width: 100%; height: 100%; border: 1px solid #dee2e6; border-radius: 0.25rem;")]⟩]⟩ := by
    intro v tags; rfl
  unfold startTags pdfHTML
  rw [List.foldl_append, List.foldl_append, h1, foldl_attrValueDQ _ _ _ _ _ hs, h2]
  rfl

set_option maxRecDepth 100000 in
theorem startTags_htmlHTML (src : JSString) (hs : 34 ∉ src) :
    startTags (htmlHTML src) =
      [⟨js "div", [(js "class", js "ratio ratio-16x9")]⟩,
       ⟨js "iframe", [(js "src", js "/document/html/" ++ src),
          (js "sandbox", js "allow-same-origin allow-scripts"),
          (js "style",
            js "width: 100%; height: 100%; border: 1px solid #dee2e6; border-radius: 0.25rem;")]⟩] := by
  have h1 : (js "\n          <div class=\"ratio ratio-16x9\">\n            <iframe src=\"/document/html/").foldl
      tokStep ⟨.data, []⟩ =
      ⟨.attrValueDQ ⟨false, js "iframe", []⟩ (js "src") (js "/document/html/"),
        [⟨js "div", [(js "class", js "ratio ratio-16x9")]⟩]⟩ := by decide
  have h2 : ∀ (v : JSString) (tags : List Tag),
      (js "\" \n                    sandbox=\"allow-same-origin allow-scripts\"\n                    style=\"width: 100%; height: 100%; border: 1px solid #dee2e6; border-radius: 0.25rem;\">\n            </iframe>\n          </div>").foldl tokStep
        ⟨.attrValueDQ ⟨false, js "iframe", []⟩ (js "src") v, tags⟩ =
      ⟨.data, tags ++ [⟨js "iframe", [(js "src", v),
          (js "sandbox", js "allow-same-origin allow-scripts"),
          (js "style",
            js "width: 100%; height: 100%; border: 1px solid #dee2e6; border-radius: 0.25rem;")]⟩]⟩ := by
    intro v tags; rfl
  unfold startTags htmlHTML
  rw [List.foldl_append, List.foldl_append, h1, foldl_attrValueDQ _ _ _ _ _ hs, h2]
  rfl

/-! ## Lemmas on conversions -/

theorem getProp_ok (host : Host) (v : JSVal) (k : JSString) (h : v.isNullish = false) :
    v.getProp host k = .ok (v.get k) := by
  simp [JSVal.getProp, h]

theorem isNullish_of_get_ne (v : JSVal) (k : JSString) (h : v.get k ≠ .undefined) :
    v.isNullish = false := by
  cases v <;> simp_all [JSVal.get, JSVal.isNullish]

theorem toStr_ok (host : Host) (v : JSVal) (h : v.convertible = true) :
    v.toStr host = .ok v.text := by
  simp [JSVal.toStr, h]

theorem toStr_err (host : Host) (v : JSVal) (h : v.convertible = false) :
    v.toStr host = .error ⟨host.notPrimitiveMessage⟩ := by
  simp [JSVal.toStr, h]

theorem textContent_ok (host : Host) (v : JSVal) (h : v.convertible = true) :
    v.textContent host = .ok v.nodeText := by
  cases v <;> simp [JSVal.textContent, JSVal.nodeText, JSVal.toStr, h]

theorem textContent_err (host : Host) (v : JSVal) (h : v.convertible = false) :
    v.textContent host = .error ⟨host.notPrimitiveMessage⟩ := by
  cases v <;> simp_all [JSVal.textContent, JSVal.toStr, JSVal.convertible]

theorem orElse_convertible (a b : JSVal) (ha : a.convertible = true)
    (hb : b.convertible = true) : (a.orElse b).convertible = true := by
  unfold JSVal.orElse
  split <;> assumption

theorem truthy_str (s : JSString) (h : s ≠ []) : (JSVal.str s).truthy = true := by
  cases s with
  | nil => exact absurd rfl h
  | cons c cs => simp [JSVal.truthy]

theorem encodeCall_str (host : Host) (s : JSString) :
    encodeCall host (.str s) = encodeURIComponent host s := by
  simp [encodeCall, JSVal.toStr, JSVal.convertible, JSVal.text]

/-! ## Lemmas on the preview handler -/

theorem applyFields_ok (host : Host) (doc : JSVal) (d : PreviewDOM)
    (hn : doc.isNullish = false) (hc : fieldsConvertible doc = true) :
    (do
      let d ← setTitle host doc d
      let d ← setAuthor host doc d
      let d ← setDate host doc d
      setDescription host doc d) = .ok (withFields host doc d) := by
  simp only [fieldsConvertible, Bool.and_eq_true] at hc
  obtain ⟨⟨⟨h1, h2⟩, h3⟩, h4⟩ := hc
  have e1 := textContent_ok host _ h1
  have e2 := textContent_ok host _ (orElse_convertible _ (.str (js "Unknown")) h2 rfl)
  have e4 := textContent_ok host _ (orElse_convertible _ (.str []) h4 rfl)
  obtain ⟨cd, ld, ed, et, fp, ms, title, author, date, description, btn, con⟩ := d
  cases title <;> cases author <;> cases date <;> cases description <;>
    simp only [setTitle, setAuthor, setDate, setDescription, withFields, getProp_ok host doc _ hn,
      e1, e2, e4, newDateText, h3, if_true, bind, Except.bind, Option.map]

theorem setDownload_str (host : Host) (doc : JSVal) (d : PreviewDOM) (path enc : JSString)
    (hp : doc.get (js "file_path") = .str path) (hne : path ≠ [])
    (henc : encodeURIComponent host path = .ok enc) :
    setDownload host doc d =
      .ok { d with downloadBtn := d.downloadBtn.map (fun _ =>
        ⟨js "/uploads/" ++ enc, afterLast '/'.toNat path⟩) } := by
  have hn : doc.isNullish = false := isNullish_of_get_ne doc _ (by rw [hp]; simp)
  have ht := truthy_str path hne
  obtain ⟨cd, ld, ed, et, fp, ms, title, author, date, description, btn, con⟩ := d
  cases btn <;>
    simp only [setDownload, getProp_ok host doc _ hn, hp, ht, encodeCall_str, henc, splitCall,
      popText, pop_split, Option.map, Bool.not_true, Bool.false_eq_true, if_false]

theorem renderPreview_str (host : Host) (doc : JSVal) (d : PreviewDOM) (path : JSString)
    (hp : doc.get (js "file_path") = .str path) (hne : path ≠ []) :
    renderPreview host doc d =
      match previewHTML host doc (resolvedType host doc path) (.str path) with
      | .ok markup => .ok { d with filePreview := markup }
      | .error e => .error (d, e) := by
  have hn : doc.isNullish = false := isNullish_of_get_ne doc _ (by rw [hp]; simp)
  have ht := truthy_str path hne
  by_cases hft : (doc.get (js "file_type")).truthy = true <;>
    simp only [renderPreview, resolveFileType, resolvedType, getProp_ok host doc _ hn, hp, ht,
      hft, splitCall, pop_split, Bool.not_true, Bool.false_eq_true, if_false, if_true] <;>
    split <;> simp_all

theorem applyDocument_eq (host : Host) (doc : JSVal) (d : PreviewDOM) :
    applyDocument host doc d =
      (do
        let d ← (do
          let d ← setTitle host doc d
          let d ← setAuthor host doc d
          let d ← setDate host doc d
          setDescription host doc d)
        let d ← setDownload host doc d
        let d ← renderPreview host doc d
        pure (showContent d)) := by
  simp [applyDocument, bind_assoc]

theorem applyDocument_str (host : Host) (doc : JSVal) (d : PreviewDOM) (path enc : JSString)
    (hp : doc.get (js "file_path") = .str path) (hne : path ≠ [])
    (henc : encodeURIComponent host path = .ok enc) (hc : fieldsConvertible doc = true) :
    applyDocument host doc d =
      match previewHTML host doc (resolvedType host doc path) (.str path) with
      | .ok markup =>
        .ok (showContent { withFields host doc d with
          downloadBtn := d.downloadBtn.map (fun _ =>
            ⟨js "/uploads/" ++ enc, afterLast '/'.toNat path⟩)
          filePreview := markup })
      | .error e =>
        .error ({ withFields host doc d with
          downloadBtn := d.downloadBtn.map (fun _ =>
            ⟨js "/uploads/" ++ enc, afterLast '/'.toNat path⟩) }, e) := by
  have hn : doc.isNullish = false := isNullish_of_get_ne doc _ (by rw [hp]; simp)
  rw [applyDocument_eq, applyFields_ok host doc d hn hc]
  simp only [bind, Except.bind, setDownload_str host doc _ path enc hp hne henc,
    renderPreview_str host doc _ path hp hne]
  cases previewHTML host doc (resolvedType host doc path) (.str path) <;> rfl

theorem applyDocument_nullish (host : Host) (doc : JSVal) (d : PreviewDOM)
    (hn : doc.isNullish = true) :
    ∃ e, applyDocument host doc d = .error (d, e) := by
  obtain ⟨cd, ld, ed, et, fp, ms, title, author, date, description, btn, con⟩ := d
  cases title <;> cases author <;> cases date <;> cases description <;> cases btn <;>
    simp [applyDocument, setTitle, setAuthor, setDate, setDescription, setDownload,
      renderPreview, JSVal.getProp, hn, bind, Except.bind]

theorem showDocumentPreview_str (host : Host) (docId : JSString) (dom : PreviewDOM)
    (status : Nat) (doc : JSVal) (path enc : JSString)
    (hok : statusOk status = true)
    (hp : doc.get (js "file_path") = .str path) (hne : path ≠ [])
    (henc : encodeURIComponent host path = .ok enc) (hc : fieldsConvertible doc = true) :
    showDocumentPreview host docId dom (.response status (.ok doc)) =
      match previewHTML host doc (resolvedType host doc path) (.str path) with
      | .ok markup =>
        showContent { withFields host doc (showDocumentPreviewBegin docId dom).1 with
          downloadBtn := dom.downloadBtn.map (fun _ =>
            ⟨js "/uploads/" ++ enc, afterLast '/'.toNat path⟩)
          filePreview := markup }
      | .error e =>
        showDocumentPreviewCatch
          ({ withFields host doc (showDocumentPreviewBegin docId dom).1 with
            downloadBtn := dom.downloadBtn.map (fun _ =>
              ⟨js "/uploads/" ++ enc, afterLast '/'.toNat path⟩) }, e) := by
  simp only [showDocumentPreview, showDocumentPreviewTry, hok, Bool.not_true,
    Bool.false_eq_true, if_false, applyDocument_str host doc _ path enc hp hne henc hc]
  cases previewHTML host doc (resolvedType host doc path) (.str path) <;> rfl

/-! ## Claims on `showDocumentPreview` -/

/-- C10, amended: for a successfully fetched record whose display fields
(`title`, `author`, `created_at`, `description`) convert to text and whose
`file_path` is a non-empty well-formed string, the download link (when the page
has one) points at `/uploads/` followed by `encodeURIComponent(file_path)`, and
its suggested file name is the last `/`-separated segment of `file_path`: it
contains no `/`, and `file_path` is the name itself or ends with `/` followed by
the name. -/
theorem C10_download_action (host : Host) (docId : JSString) (dom : PreviewDOM) (status : Nat)
    (doc : JSVal) (path enc : JSString) (btn : DownloadBtn)
    (hok : statusOk status = true)
    (hp : doc.get (js "file_path") = .str path) (hne : path ≠ [])
    (henc : encodeURIComponent host path = .ok enc)
    (hc : fieldsConvertible doc = true)
    (hbtn : dom.downloadBtn = some btn) :
    ∃ name,
      (showDocumentPreview host docId dom (.response status (.ok doc))).downloadBtn
        = some ⟨js "/uploads/" ++ enc, name⟩ ∧
      '/'.toNat ∉ name ∧
      (path = name ∨ (js "/" ++ name) <:+ path) := by
  refine ⟨afterLast '/'.toNat path, ?_, afterLast_not_mem '/'.toNat path, ?_⟩
  · rw [showDocumentPreview_str host docId dom status doc path enc hok hp hne henc hc]
    cases previewHTML host doc (resolvedType host doc path) (.str path) <;>
      simp [showContent, showDocumentPreviewCatch, hbtn]
  · rcases afterLast_suffix '/'.toNat path with h | ⟨pre, h⟩
    · exact Or.inl h
    · exact Or.inr ⟨pre, by
        have : js "/" = ['/'.toNat] := by decide
        rw [this]
        simpa using h.symm⟩

/-- The download link for `docs/report.PDF`. -/
theorem C10_download_action_witness :
    statusOk 200 = true ∧
    samplePdfDoc.get (js "file_path") = .str (js "docs/report.PDF") ∧
    js "docs/report.PDF" ≠ [] ∧
    encodeURIComponent sampleHost (js "docs/report.PDF") = .ok (js "docs%2Freport.PDF") ∧
    fieldsConvertible samplePdfDoc = true ∧
    sampleDOM.downloadBtn = some ⟨js "/uploads/old.txt", js "old.txt"⟩ ∧
    ∃ name,
      (showDocumentPreview sampleHost (js "7") sampleDOM
          (.response 200 (.ok samplePdfDoc))).downloadBtn
        = some ⟨js "/uploads/" ++ js "docs%2Freport.PDF", name⟩ ∧
      '/'.toNat ∉ name ∧
      (js "docs/report.PDF" = name ∨ (js "/" ++ name) <:+ js "docs/report.PDF") :=
  ⟨by decide, rfl, by decide, rfl, by decide, rfl,
    C10_download_action sampleHost (js "7") sampleDOM 200 samplePdfDoc
      (js "docs/report.PDF") (js "docs%2Freport.PDF") ⟨js "/uploads/old.txt", js "old.txt"⟩
      (by decide) rfl (by decide) rfl (by decide) rfl⟩

set_option maxRecDepth 100000 in
/-- For a record whose title is `{"toString": 1}` line 35 throws before the
download link is reached, and for a record whose `file_path` begins with an
unpaired surrogate `encodeURIComponent` throws: in both cases the handler ends on
the error panel with the download link of the earlier document. -/
theorem C10_counterexample :
    noTextTitleDoc.get (js "file_path") = .str (js "a/b.pdf") ∧
    (showDocumentPreview sampleHost (js "7") sampleDOM
      (.response 200 (.ok noTextTitleDoc))).downloadBtn =
        some ⟨js "/uploads/old.txt", js "old.txt"⟩ ∧
    (showDocumentPreview sampleHost (js "7") sampleDOM
      (.response 200 (.ok noTextTitleDoc))).errorDisplay = js "block" ∧
    (showDocumentPreview sampleHost (js "7") sampleDOM
      (.response 200 (.ok surrogatePathDoc))).downloadBtn =
        some ⟨js "/uploads/old.txt", js "old.txt"⟩ ∧
    (showDocumentPreview sampleHost (js "7") sampleDOM
      (.response 200 (.ok surrogatePathDoc))).errorText =
        js "Failed to load document preview. URI malformed" :=
  ⟨rfl, by decide, by decide, by decide, by decide⟩

/-- C3: when the preview request fails (the fetch rejects, the status is not OK,
or the body of an OK response does not parse), the handler ends with the loading
indicator hidden, the content panel hidden, the modal shown and the error panel
visible; its text is the fixed prefix followed by the error's message, or by the
fallback when the message is empty.  For a non-OK status `s` the text is the
prefix followed by `HTTP error! status: s`. -/
theorem C3_failure_shows_error (host : Host) (docId : JSString) (dom : PreviewDOM)
    (out : FetchOutcome) (msg : JSString) (h : failureMessage out = some msg) :
    (showDocumentPreview host docId dom out).loadingDisplay = js "none" ∧
    (showDocumentPreview host docId dom out).contentDisplay = js "none" ∧
    (showDocumentPreview host docId dom out).modalShown = true ∧
    (showDocumentPreview host docId dom out).errorDisplay = js "block" ∧
    (showDocumentPreview host docId dom out).errorText =
      js "Failed to load document preview. " ++
        (if msg = [] then js "Please try again later." else msg) ∧
    (∀ s json, out = .response s json → statusOk s = false →
      (showDocumentPreview host docId dom out).errorText =
        js "Failed to load document preview. HTTP error! status: " ++ natStr s) := by
  have hif : ∀ m : JSString, (if m.isEmpty = true then js "Please try again later." else m)
      = (if m = [] then js "Please try again later." else m) := by
    intro m; cases m <;> simp
  have hpre : ∀ m : JSString,
      js "Failed to load document preview. " ++ (js "HTTP error! status: " ++ m) =
        js "Failed to load document preview. HTTP error! status: " ++ m := by
    intro m
    rw [← List.append_assoc]
    congr 1
  have hne : ∀ m : JSString, js "HTTP error! status: " ++ m ≠ [] := by
    intro m hm
    have := congrArg List.length hm
    rw [List.length_append] at this
    have h2 : (js "HTTP error! status: ").length = 20 := by decide
    simp [h2] at this
  cases out with
  | rejected e =>
    simp only [failureMessage, Option.some.injEq] at h
    subst h
    refine ⟨rfl, rfl, rfl, rfl, ?_, ?_⟩
    · simp only [showDocumentPreview, showDocumentPreviewTry, showDocumentPreviewCatch,
        errorPanelText, hif]
    · intro s json hout; cases hout
  | response status json =>
    by_cases hok : statusOk status = true
    · cases json with
      | ok doc => simp [failureMessage, hok] at h
      | error e =>
        simp only [failureMessage, hok, Bool.not_true, Bool.false_eq_true, if_false,
          Option.some.injEq] at h
        subst h
        have hfinal : showDocumentPreview host docId dom (.response status (.error e)) =
            showDocumentPreviewCatch ((showDocumentPreviewBegin docId dom).1, e) := by
          simp only [showDocumentPreview, showDocumentPreviewTry, hok, Bool.not_true,
            Bool.false_eq_true, if_false]
        rw [hfinal]
        refine ⟨rfl, rfl, rfl, rfl, ?_, ?_⟩
        · simp only [showDocumentPreviewCatch, errorPanelText, hif]
        · intro s json hout hs
          cases hout
          rw [hok] at hs; cases hs
    · have hok2 : statusOk status = false := by simpa using hok
      simp only [failureMessage, hok2, Bool.not_false, if_true, Option.some.injEq] at h
      subst h
      have hfinal : showDocumentPreview host docId dom (.response status json) =
          showDocumentPreviewCatch ((showDocumentPreviewBegin docId dom).1,
            ⟨js "HTTP error! status: " ++ natStr status⟩) := by
        simp only [showDocumentPreview, showDocumentPreviewTry, hok2, Bool.not_false, if_true]
      rw [hfinal]
      refine ⟨rfl, rfl, rfl, rfl, ?_, ?_⟩
      · simp only [showDocumentPreviewCatch, errorPanelText, hif]
      · intro s json hout hs
        cases hout
        simp only [showDocumentPreviewCatch, errorPanelText, hif, if_neg (hne _), hpre]

/-- A 404 answer leaves the error panel with the status message. -/
theorem C3_failure_shows_error_witness :
    failureMessage (.response 404 (.ok .null)) = some (js "HTTP error! status: 404") ∧
    (showDocumentPreview sampleHost (js "7") sampleDOM (.response 404 (.ok .null))).loadingDisplay
      = js "none" ∧
    (showDocumentPreview sampleHost (js "7") sampleDOM (.response 404 (.ok .null))).errorDisplay
      = js "block" ∧
    (showDocumentPreview sampleHost (js "7") sampleDOM (.response 404 (.ok .null))).errorText
      = js "Failed to load document preview. HTTP error! status: 404" :=
  have h := C3_failure_shows_error sampleHost (js "7") sampleDOM (.response 404 (.ok .null))
    (js "HTTP error! status: 404") (by decide)
  ⟨by decide, h.1, h.2.2.2.1, by rw [h.2.2.2.2.1]; decide⟩

theorem previewHTML_image (host : Host) (doc t : JSVal) (path enc : JSString)
    (hn : doc.isNullish = false)
    (henc : encodeURIComponent host path = .ok enc)
    (hc : (doc.get (js "title")).convertible = true)
    (ht : t ∈ [JSVal.str (js "jpg"), .str (js "jpeg"), .str (js "png"), .str (js "gif")]) :
    previewHTML host doc t (.str path) = .ok (imageHTML enc (doc.get (js "title")).text) := by
  have himg : t.includedIn [js "jpg", js "jpeg", js "png", js "gif"] = true := by
    simp only [List.mem_cons, List.mem_singleton, List.not_mem_nil, or_false] at ht
    rcases ht with ht | ht | ht | ht <;> rw [ht] <;> decide
  simp only [previewHTML, himg, if_true, encodeCall_str, henc, getProp_ok host doc _ hn,
    toStr_ok host _ hc]

theorem previewHTML_pdf (host : Host) (doc : JSVal) (path enc : JSString)
    (henc : encodeURIComponent host path = .ok enc) :
    previewHTML host doc (.str (js "pdf")) (.str path) = .ok (pdfHTML enc) := by
  have h1 : (JSVal.str (js "pdf")).includedIn [js "jpg", js "jpeg", js "png", js "gif"]
      = false := by decide
  have h2 : (JSVal.str (js "pdf")).strictEqStr (js "pdf") = true := by decide
  simp only [previewHTML, h1, h2, if_true, if_false, Bool.false_eq_true, encodeCall_str, henc]

theorem previewHTML_html (host : Host) (doc t : JSVal) (path enc : JSString)
    (henc : encodeURIComponent host path = .ok enc)
    (ht : t ∈ [JSVal.str (js "html"), .str (js "htm")]) :
    previewHTML host doc t (.str path) = .ok (htmlHTML enc) := by
  have h1 : t.includedIn [js "jpg", js "jpeg", js "png", js "gif"] = false := by
    simp only [List.mem_cons, List.mem_singleton, List.not_mem_nil, or_false] at ht
    rcases ht with ht | ht <;> rw [ht] <;> decide
  have h2 : t.strictEqStr (js "pdf") = false := by
    simp only [List.mem_cons, List.mem_singleton, List.not_mem_nil, or_false] at ht
    rcases ht with ht | ht <;> rw [ht] <;> decide
  have h3 : t.includedIn [js "html", js "htm"] = true := by
    simp only [List.mem_cons, List.mem_singleton, List.not_mem_nil, or_false] at ht
    rcases ht with ht | ht <;> rw [ht] <;> decide
  simp only [previewHTML, h1, h2, h3, if_true, if_false, Bool.false_eq_true, encodeCall_str,
    henc]

theorem previewHTML_other (host : Host) (doc t path : JSVal)
    (hc : t.convertible = true)
    (h : t ∉ [JSVal.str (js "jpg"), .str (js "jpeg"), .str (js "png"),
      .str (js "gif"), .str (js "pdf"), .str (js "html"), .str (js "htm")]) :
    previewHTML host doc t path = .ok (placeholderHTML t.text) := by
  have h1 : t.includedIn [js "jpg", js "jpeg", js "png", js "gif"] = false := by
    cases t <;> simp_all [JSVal.includedIn, JSVal.strictEqStr]
  have h2 : t.strictEqStr (js "pdf") = false := by
    cases t <;> simp_all [JSVal.strictEqStr]
  have h3 : t.includedIn [js "html", js "htm"] = false := by
    cases t <;> simp_all [JSVal.includedIn, JSVal.strictEqStr]
  simp only [previewHTML, h1, h2, h3, if_false, Bool.false_eq_true, toStr_ok host t hc]

/-- C1, amended: for a successfully fetched record whose display fields convert
to text and whose `file_path` is a non-empty well-formed string, the markup
assigned to the preview region is chosen by the resolved type, which is the
`file_type` field when that field is truthy and otherwise the lower-cased text
after the last `.` of `file_path` (all of `file_path` when it has no `.`).  For
`jpg`, `jpeg`, `png`, `gif` it is the image markup, and when the title's text has
no double quote it holds exactly one image element, with source `/uploads/` +
`encodeURIComponent(file_path)`.  For `pdf` it holds exactly one frame with that
source.  For `html`, `htm` it holds exactly one frame with source
`/document/html/` + `encodeURIComponent(file_path)` and sandbox
`allow-same-origin allow-scripts`.  For any other type that converts to text it is
the placeholder panel with that text.  With `file_type` absent and `file_path`
ending in `.PDF` the frame of the `pdf` strategy is produced. -/
theorem C1_render_strategy (host : Host) (docId : JSString) (dom : PreviewDOM) (status : Nat)
    (doc : JSVal) (path enc : JSString)
    (hok : statusOk status = true)
    (hp : doc.get (js "file_path") = .str path) (hne : path ≠ [])
    (henc : encodeURIComponent host path = .ok enc)
    (hc : fieldsConvertible doc = true) :
    (resolvedType host doc path ∈ [JSVal.str (js "jpg"), .str (js "jpeg"), .str (js "png"),
        .str (js "gif")] →
      (showDocumentPreview host docId dom (.response status (.ok doc))).filePreview =
        imageHTML enc (doc.get (js "title")).text ∧
      (34 ∉ (doc.get (js "title")).text →
        ∃ tag, elementsNamed (js "img")
            (showDocumentPreview host docId dom (.response status (.ok doc))).filePreview
            = [tag] ∧
          tag.attr (js "src") = some (js "/uploads/" ++ enc))) ∧
    (resolvedType host doc path = .str (js "pdf") →
      (showDocumentPreview host docId dom (.response status (.ok doc))).filePreview =
        pdfHTML enc ∧
      ∃ tag, elementsNamed (js "iframe")
          (showDocumentPreview host docId dom (.response status (.ok doc))).filePreview
          = [tag] ∧
        tag.attr (js "src") = some (js "/uploads/" ++ enc)) ∧
    (resolvedType host doc path ∈ [JSVal.str (js "html"), .str (js "htm")] →
      (showDocumentPreview host docId dom (.response status (.ok doc))).filePreview =
        htmlHTML enc ∧
      ∃ tag, elementsNamed (js "iframe")
          (showDocumentPreview host docId dom (.response status (.ok doc))).filePreview
          = [tag] ∧
        tag.attr (js "src") = some (js "/document/html/" ++ enc) ∧
        tag.attr (js "sandbox") = some (js "allow-same-origin allow-scripts")) ∧
    (resolvedType host doc path ∉ [JSVal.str (js "jpg"), .str (js "jpeg"), .str (js "png"),
        .str (js "gif"), .str (js "pdf"), .str (js "html"), .str (js "htm")] →
      (resolvedType host doc path).convertible = true →
      (showDocumentPreview host docId dom (.response status (.ok doc))).filePreview =
        placeholderHTML (resolvedType host doc path).text) ∧
    (∀ pre, path = pre ++ js ".PDF" → doc.get (js "file_type") = .undefined →
      (showDocumentPreview host docId dom (.response status (.ok doc))).filePreview =
        pdfHTML enc) := by
  have hn : doc.isNullish = false := isNullish_of_get_ne doc _ (by rw [hp]; simp)
  have hq := encodeURIComponent_no_quote host path enc henc
  have htitle : (doc.get (js "title")).convertible = true := by
    simp only [fieldsConvertible, Bool.and_eq_true] at hc
    exact hc.1.1.1
  have hfinal : ∀ markup,
      previewHTML host doc (resolvedType host doc path) (.str path) = .ok markup →
      (showDocumentPreview host docId dom (.response status (.ok doc))).filePreview
        = markup := by
    intro markup hm
    rw [showDocumentPreview_str host docId dom status doc path enc hok hp hne henc hc, hm]
    rfl
  refine ⟨?_, ?_, ?_, ?_, ?_⟩
  · intro ht
    rw [hfinal _ (previewHTML_image host doc _ path enc hn henc htitle ht)]
    refine ⟨rfl, fun hquote => ?_⟩
    rw [elementsNamed, startTags_imageHTML _ _ hq hquote]
    exact ⟨_, rfl, rfl⟩
  · intro ht
    rw [hfinal (pdfHTML enc) (by rw [ht]; exact previewHTML_pdf host doc path enc henc)]
    refine ⟨rfl, ?_⟩
    rw [elementsNamed, startTags_pdfHTML _ hq]
    exact ⟨_, rfl, rfl⟩
  · intro ht
    rw [hfinal _ (previewHTML_html host doc _ path enc henc ht)]
    refine ⟨rfl, ?_⟩
    rw [elementsNamed, startTags_htmlHTML _ hq]
    exact ⟨_, rfl, rfl, rfl⟩
  · intro ht hconv
    exact hfinal _ (previewHTML_other host doc _ _ hconv ht)
  · intro pre hpre hft
    have hext : afterLast '.'.toNat path = js "PDF" := by
      rw [hpre]
      exact afterLast_append_sep '.'.toNat pre (js "PDF") (by decide)
    have hres : resolvedType host doc path = .str (js "pdf") := by
      simp only [resolvedType, hft, JSVal.truthy, Bool.false_eq_true, if_false, hext]
      rfl
    exact hfinal _ (by rw [hres]; exact previewHTML_pdf host doc path enc henc)

/-- The record `samplePdfDoc` gets the frame of the `pdf` strategy. -/
theorem C1_render_strategy_witness :
    statusOk 200 = true ∧
    samplePdfDoc.get (js "file_path") = .str (js "docs/report.PDF") ∧
    js "docs/report.PDF" ≠ [] ∧
    encodeURIComponent sampleHost (js "docs/report.PDF") = .ok (js "docs%2Freport.PDF") ∧
    fieldsConvertible samplePdfDoc = true ∧
    (showDocumentPreview sampleHost (js "7") sampleDOM
        (.response 200 (.ok samplePdfDoc))).filePreview = pdfHTML (js "docs%2Freport.PDF") :=
  ⟨by decide, rfl, by decide, rfl, by decide,
    (C1_render_strategy sampleHost (js "7") sampleDOM 200 samplePdfDoc
      (js "docs/report.PDF") (js "docs%2Freport.PDF") (by decide) rfl (by decide) rfl
      (by decide)).2.2.2.2 (js "docs/report") rfl rfl⟩

set_option maxRecDepth 100000 in
/-- A `file_type` that is present and empty does not decide the strategy: the
record gets the `pdf` frame of its extension, not the placeholder for the empty
type.  A `png` record whose title holds a double quote yields two image elements.
A record whose title does not convert to text, a record whose `file_path`
holds an unpaired surrogate, and a record whose `file_type` does not convert to
text get no preview markup at all. -/
theorem C1_counterexample :
    (emptyTypeDoc.get (js "file_type")).isDefined = true ∧
    (showDocumentPreview sampleHost (js "7") sampleDOM
        (.response 200 (.ok emptyTypeDoc))).filePreview =
      pdfHTML (js "docs%2Freport.pdf") ∧
    (showDocumentPreview sampleHost (js "7") sampleDOM
        (.response 200 (.ok emptyTypeDoc))).filePreview ≠
      placeholderHTML (emptyTypeDoc.get (js "file_type")).text ∧
    (elementsNamed (js "img")
      (showDocumentPreview sampleHost (js "7") sampleDOM
        (.response 200 (.ok quoteTitleDoc))).filePreview).length = 2 ∧
    (showDocumentPreview sampleHost (js "7") sampleDOM
        (.response 200 (.ok noTextTitleDoc))).filePreview = [] ∧
    (showDocumentPreview sampleHost (js "7") sampleDOM
        (.response 200 (.ok surrogatePathDoc))).filePreview = [] ∧
    (showDocumentPreview sampleHost (js "7") sampleDOM
        (.response 200 (.ok noTextTypeDoc))).filePreview = [] := by
  decide

set_option maxRecDepth 100000 in
/-- C7: on the record `markupExtensionDoc`, whose resolved type is none of the
seven known ones, the handler writes the placeholder panel with the type text
inserted as markup, so the panel holds an image element. -/
theorem C7_placeholder_holds_image :
    resolvedType sampleHost markupExtensionDoc (js "report.<img src=x>")
      = .str (js "<img src=x>") ∧
    (showDocumentPreview sampleHost (js "7") sampleDOM
        (.response 200 (.ok markupExtensionDoc))).filePreview =
      placeholderHTML (js "<img src=x>") ∧
    elementsNamed (js "img")
        (showDocumentPreview sampleHost (js "7") sampleDOM
          (.response 200 (.ok markupExtensionDoc))).filePreview =
      [⟨js "img", [(js "src", js "x")]⟩] :=
  ⟨rfl, by decide, by decide⟩

/-! ## Lemmas on `toggleStar` -/

theorem toggleStar_eq (host : Host) (itemType itemId : JSString) (hasEvent : Bool) (page : Page)
    (out : FetchOutcome) (b : StarButton)
    (hlogin : isLoggedIn page = true) (hb : page.button = some b) :
    toggleStar host itemType itemId hasEvent page out =
      toggleStarResume host out (awaitingPage itemType itemId hasEvent page b) := by
  obtain ⟨uid, pn, hr, btn, rq, al, co, dp⟩ := page
  simp only at hb
  subst hb
  cases hasEvent <;>
    simp_all [toggleStar, toggleStarBegin, isLoggedIn, showLoginModal, Page.updButton,
      awaitingPage]

theorem newError_truthy (host : Host) (v : JSVal) (ht : v.truthy = true) :
    newError host v =
      if v.convertible then .ok ⟨v.text⟩ else .error ⟨host.notPrimitiveMessage⟩ := by
  have hne : v ≠ .undefined := by
    rintro rfl
    simp [JSVal.truthy] at ht
  have h1 : newError host v =
      match v.toStr host with
      | .error e => .error e
      | .ok m => .ok ⟨m⟩ := by
    cases v <;> first | rfl | exact absurd rfl hne
  rw [h1]
  by_cases hc : v.convertible = true
  · rw [toStr_ok host v hc]
    simp [hc]
  · have hc2 : v.convertible = false := by simpa using hc
    rw [toStr_err host v hc2]
    simp [hc2]

theorem toggleStarResume_fail (host : Host) (out : FetchOutcome) (p : Page) (b : StarButton)
    (msg : JSString) (hb : p.button = some b) (h : starFailure host out = some msg) :
    toggleStarResume host out p =
      ({ p with
          console := p.console ++ [js "Error toggling star:"]
          alerts := p.alerts ++ [js "Failed to update star"]
          button := some { b with disabled := false } },
        .ok (.obj [(js "error", .str msg)])) := by
  obtain ⟨uid, pn, hr, btn, rq, al, co, dp⟩ := p
  simp only at hb
  subst hb
  cases out with
  | rejected e =>
    simp only [starFailure, Option.some.injEq] at h
    subst h
    simp [toggleStarResume, toggleStarTry, toggleStarSettle, showToast, Page.updButton]
  | response status json =>
    cases json with
    | error e =>
      simp only [starFailure, Option.some.injEq] at h
      subst h
      simp [toggleStarResume, toggleStarTry, toggleStarSettle, showToast, Page.updButton]
    | ok data =>
      by_cases hn : data.isNullish = true
      · by_cases hok : statusOk status = true
        · simp only [starFailure, hn, hok, if_true, Option.some.injEq] at h
          subst h
          simp only [toggleStarResume, toggleStarTry, hok, Bool.not_true, Bool.false_eq_true,
            if_false, JSVal.getProp, hn, if_true, toggleStarSettle, showToast, Page.updButton,
            Option.map]
        · simp only [starFailure, hn, hok, if_true, if_false, Option.some.injEq,
            Bool.false_eq_true] at h
          subst h
          have hok2 : statusOk status = false := by simpa using hok
          simp only [toggleStarResume, toggleStarTry, hok2, Bool.not_false,
            if_true, JSVal.getProp, hn, toggleStarSettle, showToast, Page.updButton,
            Option.map]
      · have hn2 : data.isNullish = false := by simpa using hn
        by_cases hok : statusOk status = true
        · simp [starFailure, hn2, hok] at h
        · have hok2 : statusOk status = false := by simpa using hok
          by_cases herr : (data.get (js "error")).truthy = true
          · simp only [starFailure, hn2, hok2, herr, if_true, if_false, Option.some.injEq,
              Bool.false_eq_true] at h
            subst h
            have hor : (data.get (js "error")).orElse
                (.str (js "HTTP error! status: " ++ natStr status)) = data.get (js "error") := by
              simp [JSVal.orElse, herr]
            by_cases hcv : (data.get (js "error")).convertible = true <;>
              simp only [toggleStarResume, toggleStarTry, hok2, Bool.not_false, if_true,
                getProp_ok host data _ hn2, hor, newError_truthy host _ herr, hcv,
                toggleStarSettle, showToast, Page.updButton, Option.map, Bool.false_eq_true,
                if_false]
          · simp only [starFailure, hn2, hok2, herr, if_true, if_false, Option.some.injEq,
              Bool.false_eq_true] at h
            subst h
            have hor : (data.get (js "error")).orElse
                (.str (js "HTTP error! status: " ++ natStr status)) =
                  .str (js "HTTP error! status: " ++ natStr status) := by
              simp [JSVal.orElse, herr]
            simp only [toggleStarResume, toggleStarTry, hok2, Bool.not_false, if_true,
              getProp_ok host data _ hn2, hor, newError, JSVal.toStr, JSVal.convertible,
              JSVal.text, toggleStarSettle, showToast, Page.updButton, Option.map]

theorem starFailure_none (host : Host) (out : FetchOutcome) (h : starFailure host out = none) :
    ∃ status data, out = .response status (.ok data) ∧ statusOk status = true ∧
      data.isNullish = false := by
  cases out with
  | rejected e => simp [starFailure] at h
  | response status json =>
    cases json with
    | error e => simp [starFailure] at h
    | ok data =>
      refine ⟨status, data, rfl, ?_⟩
      by_cases hn : data.isNullish = true
      · simp [starFailure, hn] at h
      · by_cases hok : statusOk status = true
        · exact ⟨hok, by simpa using hn⟩
        · have hn2 : data.isNullish = false := by simpa using hn
          have hok2 : statusOk status = false := by simpa using hok
          simp only [starFailure, hn2, hok2, Bool.false_eq_true, if_false] at h
          split at h <;> cases h

theorem toggleStarResume_ok (host : Host) (status : Nat) (data : JSVal) (p : Page)
    (b : StarButton) (hb : p.button = some b)
    (hok : statusOk status = true) (hn : data.isNullish = false) :
    toggleStarResume host (.response status (.ok data)) p =
      if conversionsComplete data b then
        ({ p with
            alerts := p.alerts ++ [successToast data]
            button := some { applyStarred (data.get (js "starred")).truthy b with
              counter := counterAfter (data.get (js "star_count")) b
              disabled := false } },
          .ok data)
      else
        ({ p with
            console := p.console ++ [js "Error toggling star:"]
            alerts := p.alerts ++ [js "Failed to update star"]
            button := some { applyStarred (data.get (js "starred")).truthy b with
              counter := counterAfter (data.get (js "star_count")) b
              disabled := false } },
          .ok (.obj [(js "error", .str host.notPrimitiveMessage)])) := by
  obtain ⟨uid, pn, hr, btn, rq, al, co, dp⟩ := p
  simp only at hb
  subst hb
  obtain ⟨dis, cl, ic, lb, ct⟩ := b
  have hcnt : ∀ s : Bool, (applyStarred s ⟨dis, cl, ic, lb, ct⟩).counter = ct := by
    intro s; cases s <;> rfl
  cases hd : (data.get (js "star_count")).isDefined <;> cases ct <;>
    cases hcv : (data.get (js "star_count")).convertible <;>
    cases hmt : (data.get (js "message")).truthy <;>
    cases hmc : (data.get (js "message")).convertible <;>
    simp [toggleStarResume, toggleStarTry, hok, getProp_ok host data _ hn, toggleStarSettle,
      showToast, Page.updButton, applyStarCount, showFeedback, conversionsComplete, counterAfter,
      successToast, hd, hcv, hmt, hmc, hcnt, textContent_ok, textContent_err, toStr_ok,
      toStr_err]

theorem mem_replaceFirst (token newToken : JSString) (l : List JSString)
    (h : token ∈ l ∨ newToken ∈ l) : newToken ∈ DOMTokenList.replaceFirst token newToken l := by
  induction l with
  | nil => simp at h
  | cons t ts ih =>
    by_cases ht : t = token ∨ t = newToken
    · simp [DOMTokenList.replaceFirst, ht]
    · have hts : token ∈ ts ∨ newToken ∈ ts := by
        rcases h with h | h
        · rcases List.mem_cons.mp h with h | h
          · exact absurd (Or.inl h.symm) ht
          · exact Or.inl h
        · rcases List.mem_cons.mp h with h | h
          · exact absurd (Or.inr h.symm) ht
          · exact Or.inr h
      simp only [DOMTokenList.replaceFirst, ht, if_false, List.mem_cons]
      exact Or.inr (ih hts)

theorem not_mem_replaceFirst (token newToken : JSString) (l : List JSString)
    (hne : token ≠ newToken) : token ∉ DOMTokenList.replaceFirst token newToken l := by
  induction l with
  | nil => simp [DOMTokenList.replaceFirst]
  | cons t ts ih =>
    by_cases ht : t = token ∨ t = newToken
    · simp [DOMTokenList.replaceFirst, ht, hne]
    · simp only [DOMTokenList.replaceFirst, ht, if_false, List.mem_cons, not_or]
      exact ⟨fun e => ht (Or.inl e.symm), ih⟩

theorem replace_spec (token newToken : JSString) (l : List JSString) (hne : token ≠ newToken)
    (h : token ∈ l ∨ newToken ∈ l) :
    newToken ∈ DOMTokenList.replace l token newToken ∧
      token ∉ DOMTokenList.replace l token newToken := by
  by_cases hm : token ∈ l
  · simp only [DOMTokenList.replace, hm, if_true]
    exact ⟨mem_replaceFirst _ _ _ h, not_mem_replaceFirst _ _ _ hne⟩
  · rw [DOMTokenList.replace, if_neg hm]
    exact ⟨h.resolve_left hm, hm⟩

theorem applyStarred_spec (starred : Bool) (b : StarButton) :
    (js "starred" ∈ (applyStarred starred b).classList ↔ starred = true) ∧
    (applyStarred starred b).label =
      b.label.map (fun _ => if starred then js " Starred" else js " Star") ∧
    (∀ cl, b.icon = some cl → js "far" ∈ cl ∨ js "fas" ∈ cl →
      ∃ cl', (applyStarred starred b).icon = some cl' ∧
        (starred = true → js "fas" ∈ cl' ∧ js "far" ∉ cl') ∧
        (starred = false → js "far" ∈ cl' ∧ js "fas" ∉ cl')) := by
  cases starred
  · refine ⟨?_, ?_, ?_⟩
    · simp [applyStarred, DOMTokenList.remove]
    · simp [applyStarred]
    · intro cl hcl hmem
      refine ⟨DOMTokenList.replace cl (js "fas") (js "far"), by simp [applyStarred, hcl],
        by simp, fun _ => ?_⟩
      exact replace_spec (js "fas") (js "far") cl (by decide) hmem.symm
  · refine ⟨?_, ?_, ?_⟩
    · simp [applyStarred, DOMTokenList.add]
      by_cases h : js "starred" ∈ b.classList <;> simp_all
    · simp [applyStarred]
    · intro cl hcl hmem
      refine ⟨DOMTokenList.replace cl (js "far") (js "fas"), by simp [applyStarred, hcl],
        fun _ => ?_, by simp⟩
      exact replace_spec (js "far") (js "fas") cl (by decide) hmem

theorem toggleStar_ok_button (host : Host) (itemType itemId : JSString) (hasEvent : Bool)
    (page : Page) (b : StarButton) (status : Nat) (data : JSVal)
    (hlogin : isLoggedIn page = true) (hb : page.button = some b)
    (hok : statusOk status = true) (hn : data.isNullish = false) :
    (toggleStar host itemType itemId hasEvent page (.response status (.ok data))).1.button =
      some { applyStarred (data.get (js "starred")).truthy b with
        counter := counterAfter (data.get (js "star_count")) b
        disabled := false } ∧
    isLoggedIn (toggleStar host itemType itemId hasEvent page (.response status (.ok data))).1
      = true := by
  rw [toggleStar_eq host itemType itemId hasEvent page _ b hlogin hb,
    toggleStarResume_ok host status data _ { b with disabled := true } rfl hok hn]
  have hbtn : ({ applyStarred (data.get (js "starred")).truthy { b with disabled := true } with
        counter := counterAfter (data.get (js "star_count")) { b with disabled := true }
        disabled := false } : StarButton) =
      { applyStarred (data.get (js "starred")).truthy b with
        counter := counterAfter (data.get (js "star_count")) b
        disabled := false } := by
    obtain ⟨dis, cl, ic, lb, ct⟩ := b
    cases (data.get (js "starred")).truthy <;> simp [applyStarred, counterAfter]
  have hl : isLoggedIn (awaitingPage itemType itemId hasEvent page b) = true := by
    simpa [isLoggedIn, awaitingPage] using hlogin
  split
  · exact ⟨by rw [← hbtn], by simpa [isLoggedIn, awaitingPage] using hlogin⟩
  · exact ⟨by rw [← hbtn], by simpa [isLoggedIn, awaitingPage] using hlogin⟩

/-! ## Claims on `toggleStar` -/

/-- C8: when `toggleStar` runs for a signed-in user and finds its button, the
button is disabled in the state in which `fetch` is called, no request having
been issued before, and it is enabled when `toggleStar` completes, whatever the
outcome of the request. -/
theorem C8_button_disabled_then_enabled (host : Host) (itemType itemId : JSString)
    (hasEvent : Bool) (page : Page) (b : StarButton)
    (hlogin : isLoggedIn page = true) (hb : page.button = some b) :
    (∃ p, toggleStarBegin itemType itemId hasEvent page
        = .awaiting p (starRequest itemType itemId) ∧
      p.button.map (fun x => x.disabled) = some true ∧ p.requests = page.requests) ∧
    ∀ out, (toggleStar host itemType itemId hasEvent page out).1.button.map
      (fun x => x.disabled) = some false := by
  refine ⟨?_, ?_⟩
  · obtain ⟨uid, pn, hr, btn, rq, al, co, dp⟩ := page
    simp only at hb
    subst hb
    cases hasEvent <;> simp_all [toggleStarBegin, isLoggedIn, Page.updButton]
  · intro out
    cases hf : starFailure host out with
    | some msg =>
      rw [toggleStar_eq host itemType itemId hasEvent page out b hlogin hb,
        toggleStarResume_fail host out _ { b with disabled := true } msg rfl hf]
      rfl
    | none =>
      obtain ⟨status, data, rfl, hok, hn⟩ := starFailure_none host out hf
      rw [(toggleStar_ok_button host itemType itemId hasEvent page b status data hlogin hb
        hok hn).1]
      rfl

/-- On the sample page the button ends enabled for every outcome. -/
theorem C8_button_disabled_then_enabled_witness :
    isLoggedIn samplePage = true ∧ samplePage.button = some sampleButton ∧
    ∀ out, (toggleStar sampleHost (js "document") (js "7") true samplePage out).1.button.map
      (fun x => x.disabled) = some false :=
  ⟨by decide, rfl,
    (C8_button_disabled_then_enabled sampleHost (js "document") (js "7") true samplePage
      sampleButton (by decide) rfl).2⟩

/-- C4, amended: when the body's `data-user-id` marker is the sentinel `None`,
`toggleStar` sets the navigation target to `/login?next=` followed by the encoded
current path, returns without calling `fetch`, and leaves the list of issued
requests as it was. -/
theorem C4_sentinel_redirects (host : Host) (itemType itemId : JSString) (hasEvent : Bool)
    (page : Page) (out : FetchOutcome) (h : page.userId = some (js "None")) :
    (toggleStar host itemType itemId hasEvent page out).1.href =
      some (js "/login?next=" ++ encodeText page.pathname) ∧
    (toggleStar host itemType itemId hasEvent page out).1.requests = page.requests ∧
    (∃ p, toggleStarBegin itemType itemId hasEvent page = .returned p .undefined) := by
  obtain ⟨uid, pn, hr, btn, rq, al, co, dp⟩ := page
  simp only at h
  subst h
  cases hasEvent <;> simp [toggleStar, toggleStarBegin, isLoggedIn, showLoginModal]

/-- The page with the sentinel marker is sent to the login page. -/
theorem C4_sentinel_redirects_witness :
    anonymousPage.userId = some (js "None") ∧
    (toggleStar sampleHost (js "document") (js "7") true anonymousPage
        (.rejected ⟨js "offline"⟩)).1.href =
      some (js "/login?next=" ++ encodeText anonymousPage.pathname) ∧
    (toggleStar sampleHost (js "document") (js "7") true anonymousPage
        (.rejected ⟨js "offline"⟩)).1.requests = anonymousPage.requests :=
  have h := C4_sentinel_redirects sampleHost (js "document") (js "7") true anonymousPage
    (.rejected ⟨js "offline"⟩) rfl
  ⟨rfl, h.1, h.2.1⟩

/-- On a page whose body lacks the marker, `toggleStar` issues its request and
sets no navigation target. -/
theorem C4_counterexample :
    unmarkedPage.userId = none ∧
    (toggleStar sampleHost (js "document") (js "7") true unmarkedPage
        (.rejected ⟨js "offline"⟩)).1.href = none ∧
    (toggleStar sampleHost (js "document") (js "7") true unmarkedPage
        (.rejected ⟨js "offline"⟩)).1.requests =
      [starRequest (js "document") (js "7")] := by
  decide

/-- C2, amended: after a successful response (OK status, a body that is not
`null`) the button has the class `starred` exactly when `data.starred` is truthy,
its label (when it has one) reads ` Starred` when starred and ` Star` when not,
and an icon whose class list held `far` or `fas` before the call holds `fas` and
not `far` when starred, `far` and not `fas` when not.  After two toggles answered
`starred: true` and then `starred: false` the button lacks the class and its label
reads ` Star`. -/
theorem C2_visual_state_follows_response (host : Host) (itemType itemId : JSString)
    (hasEvent : Bool) (page : Page) (b : StarButton) (status : Nat) (data : JSVal)
    (hlogin : isLoggedIn page = true) (hb : page.button = some b)
    (hok : statusOk status = true) (hn : data.isNullish = false) :
    (∃ b', (toggleStar host itemType itemId hasEvent page
          (.response status (.ok data))).1.button = some b' ∧
      (js "starred" ∈ b'.classList ↔ (data.get (js "starred")).truthy = true) ∧
      b'.label = b.label.map (fun _ =>
        if (data.get (js "starred")).truthy then js " Starred" else js " Star") ∧
      (∀ cl, b.icon = some cl → js "far" ∈ cl ∨ js "fas" ∈ cl →
        ∃ cl', b'.icon = some cl' ∧
          ((data.get (js "starred")).truthy = true →
            js "fas" ∈ cl' ∧ js "far" ∉ cl') ∧
          ((data.get (js "starred")).truthy = false →
            js "far" ∈ cl' ∧ js "fas" ∉ cl'))) ∧
    (∀ status2 data2, statusOk status2 = true → data2.isNullish = false →
      (data.get (js "starred")).truthy = true →
      (data2.get (js "starred")).truthy = false →
      ∃ b2, (toggleStar host itemType itemId hasEvent
          (toggleStar host itemType itemId hasEvent page (.response status (.ok data))).1
          (.response status2 (.ok data2))).1.button = some b2 ∧
        js "starred" ∉ b2.classList ∧
        b2.label = b.label.map (fun _ => js " Star")) := by
  have key : ∀ (pg : Page) (bb : StarButton) (st : Nat) (dt : JSVal),
      isLoggedIn pg = true → pg.button = some bb → statusOk st = true →
      dt.isNullish = false →
      ∃ b', (toggleStar host itemType itemId hasEvent pg (.response st (.ok dt))).1.button
          = some b' ∧
        isLoggedIn (toggleStar host itemType itemId hasEvent pg (.response st (.ok dt))).1
          = true ∧
        (js "starred" ∈ b'.classList ↔ (dt.get (js "starred")).truthy = true) ∧
        b'.label = bb.label.map (fun _ =>
          if (dt.get (js "starred")).truthy then js " Starred" else js " Star") ∧
        (∀ cl, bb.icon = some cl → js "far" ∈ cl ∨ js "fas" ∈ cl →
          ∃ cl', b'.icon = some cl' ∧
            ((dt.get (js "starred")).truthy = true →
              js "fas" ∈ cl' ∧ js "far" ∉ cl') ∧
            ((dt.get (js "starred")).truthy = false →
              js "far" ∈ cl' ∧ js "fas" ∉ cl')) := by
    intro pg bb st dt hl hbb hst hdt
    obtain ⟨hbtn, hlog⟩ := toggleStar_ok_button host itemType itemId hasEvent pg bb st dt
      hl hbb hst hdt
    obtain ⟨s1, s2, s3⟩ := applyStarred_spec (dt.get (js "starred")).truthy bb
    exact ⟨_, hbtn, hlog, s1, s2, s3⟩
  refine ⟨?_, ?_⟩
  · obtain ⟨b', h1, -, h3, h4, h5⟩ := key page b status data hlogin hb hok hn
    exact ⟨b', h1, h3, h4, h5⟩
  · intro status2 data2 hok2 hn2 ht hf
    obtain ⟨b1, h1, hl1, -, hlab1, -⟩ := key page b status data hlogin hb hok hn
    obtain ⟨b2, h2, -, hcls2, hlab2, -⟩ := key _ b1 status2 data2 hl1 h1 hok2 hn2
    refine ⟨b2, h2, ?_, ?_⟩
    · rw [hcls2, hf]; simp
    · rw [hlab2, hlab1, hf]
      cases b.label <;> simp

/-- A `starred: true` response marks the sample button as starred. -/
theorem C2_visual_state_follows_response_witness :
    isLoggedIn samplePage = true ∧ samplePage.button = some sampleButton ∧
    statusOk 200 = true ∧
    (∃ b', (toggleStar sampleHost (js "document") (js "7") true samplePage
          (.response 200 (.ok (.obj [(js "starred", .bool true)])))).1.button = some b' ∧
      js "starred" ∈ b'.classList ∧ b'.label = some (js " Starred")) :=
  have h := (C2_visual_state_follows_response sampleHost (js "document") (js "7") true
    samplePage sampleButton 200 (.obj [(js "starred", .bool true)])
    (by decide) rfl (by decide) rfl).1
  ⟨by decide, rfl, by decide, h.elim fun b' hb' => ⟨b', hb'.1, hb'.2.1.mpr rfl, hb'.2.2.1⟩⟩

/-- An icon with neither `far` nor `fas` is left as it was by a `starred: true`
response: it does not become the solid variant. -/
theorem C2_counterexample :
    ((toggleStar sampleHost (js "document") (js "7") true plainIconPage
        (.response 200 (.ok (.obj [(js "starred", .bool true)])))).1.button.map
      (fun x => x.icon)) = some (some [js "fa-star"]) ∧
    js "fas" ∉ [js "fa-star"] := by
  decide

/-- C6, amended: after a successful response (OK status, a body that is not
`null`), the counter text is unchanged when the body has no `star_count`; when
the body has a `star_count` that converts to text and the button has a counter,
the counter text is the text of that value, for a number the text
`Number::toString` gives it. -/
theorem C6_counter_follows_star_count (host : Host) (itemType itemId : JSString)
    (hasEvent : Bool) (page : Page) (b : StarButton) (status : Nat) (data : JSVal)
    (hlogin : isLoggedIn page = true) (hb : page.button = some b)
    (hok : statusOk status = true) (hn : data.isNullish = false) :
    (data.get (js "star_count") = .undefined →
      (toggleStar host itemType itemId hasEvent page (.response status (.ok data))).1.button.map
        (fun x => x.counter) = some b.counter) ∧
    (∀ old, (data.get (js "star_count")).isDefined = true →
      (data.get (js "star_count")).convertible = true → b.counter = some old →
      (toggleStar host itemType itemId hasEvent page (.response status (.ok data))).1.button.map
        (fun x => x.counter) = some (some (data.get (js "star_count")).nodeText)) ∧
    (∀ old x, data.get (js "star_count") = .num x → b.counter = some old →
      (toggleStar host itemType itemId hasEvent page (.response status (.ok data))).1.button.map
        (fun x => x.counter) = some (some x.text)) := by
  have hbtn := (toggleStar_ok_button host itemType itemId hasEvent page b status data
    hlogin hb hok hn).1
  rw [hbtn]
  simp only [Option.map, Option.some.injEq]
  refine ⟨?_, ?_, ?_⟩
  · intro hu
    simp [counterAfter, hu, JSVal.isDefined]
  · intro old hd hcv hold
    simp [counterAfter, hd, hcv, hold]
  · intro old x hnum hold
    simp [counterAfter, hnum, hold, JSVal.isDefined, JSVal.convertible, JSVal.nodeText,
      JSVal.text]

/-- A response with `star_count: 4` turns the counter `3` into `4`. -/
theorem C6_counter_follows_star_count_witness :
    isLoggedIn samplePage = true ∧ samplePage.button = some sampleButton ∧
    statusOk 200 = true ∧
    (toggleStar sampleHost (js "document") (js "7") true samplePage
      (.response 200 (.ok (.obj [(js "starred", .bool true),
        (js "star_count", .num ⟨js "4", true⟩)])))).1.button.map
        (fun x => x.counter) = some (some (js "4")) :=
  ⟨by decide, rfl, by decide,
    (C6_counter_follows_star_count sampleHost (js "document") (js "7") true samplePage
      sampleButton 200 (.obj [(js "starred", .bool true), (js "star_count", .num ⟨js "4", true⟩)])
      (by decide) rfl (by decide) rfl).2.2 (js "3") ⟨js "4", true⟩ rfl rfl⟩

/-- A response whose `star_count` is `{"toString": 1}` has the field, yet the
setter throws on it: the counter keeps its text `3`, and the failure toast is
shown. -/
theorem C6_counterexample :
    (noTextCountData.get (js "star_count")).isDefined = true ∧
    sampleButton.counter = some (js "3") ∧
    (toggleStar sampleHost (js "document") (js "7") true samplePage
      (.response 200 (.ok noTextCountData))).1.button.map
        (fun x => x.counter) = some (some (js "3")) ∧
    (toggleStar sampleHost (js "document") (js "7") true samplePage
      (.response 200 (.ok noTextCountData))).1.alerts = [js "Failed to update star"] := by
  decide

/-- C5, amended: a call of `toggleStar` that reaches the request never throws,
and it returns either the parsed body of an OK response or an object whose
`error` is a string.  It returns the parsed body when the status is OK, the body
is not `null`, and its `star_count` and `message` convert to text.  For a non-OK
status with a parsed body that is not `null` and whose `error` converts to text,
the returned `error` is the text of the body's `error` field when that field is
truthy (the field itself when it is a non-empty string) and
`HTTP error! status: ` followed by the status otherwise.  When `fetch` rejects or
the body does not parse, whatever the status, the returned `error` is that
failure's message. -/
theorem C5_result_is_returned (host : Host) (itemType itemId : JSString) (hasEvent : Bool)
    (page : Page) (b : StarButton) (out : FetchOutcome)
    (hlogin : isLoggedIn page = true) (hb : page.button = some b) :
    ((∃ msg, (toggleStar host itemType itemId hasEvent page out).2 =
        .ok (.obj [(js "error", .str msg)])) ∨
      (∃ status data, out = .response status (.ok data) ∧ statusOk status = true ∧
        (toggleStar host itemType itemId hasEvent page out).2 = .ok data)) ∧
    (∀ status data, out = .response status (.ok data) → statusOk status = true →
      data.isNullish = false → (data.get (js "star_count")).convertible = true →
      (data.get (js "message")).convertible = true →
      (toggleStar host itemType itemId hasEvent page out).2 = .ok data) ∧
    (∀ status data, out = .response status (.ok data) → statusOk status = false →
      data.isNullish = false → (data.get (js "error")).convertible = true →
      (toggleStar host itemType itemId hasEvent page out).2 =
        .ok (.obj [(js "error", .str
          (if (data.get (js "error")).truthy then (data.get (js "error")).text
           else js "HTTP error! status: " ++ natStr status))])) ∧
    (∀ status data s, out = .response status (.ok data) → statusOk status = false →
      data.get (js "error") = .str s → s ≠ [] →
      (toggleStar host itemType itemId hasEvent page out).2 =
        .ok (.obj [(js "error", .str s)])) ∧
    (∀ e, out = .rejected e →
      (toggleStar host itemType itemId hasEvent page out).2 =
        .ok (.obj [(js "error", .str e.message)])) ∧
    (∀ status e, out = .response status (.error e) →
      (toggleStar host itemType itemId hasEvent page out).2 =
        .ok (.obj [(js "error", .str e.message)])) := by
  have hfail : ∀ o msg, starFailure host o = some msg →
      (toggleStar host itemType itemId hasEvent page o).2 =
        .ok (.obj [(js "error", .str msg)]) := by
    intro o msg hf
    rw [toggleStar_eq host itemType itemId hasEvent page o b hlogin hb,
      toggleStarResume_fail host o _ { b with disabled := true } msg rfl hf]
  have hres : ∀ status data, statusOk status = true → data.isNullish = false →
      (toggleStar host itemType itemId hasEvent page (.response status (.ok data))).2 =
        if conversionsComplete data { b with disabled := true } then .ok data
        else .ok (.obj [(js "error", .str host.notPrimitiveMessage)]) := by
    intro status data hok hn
    rw [toggleStar_eq host itemType itemId hasEvent page _ b hlogin hb,
      toggleStarResume_ok host status data _ { b with disabled := true } rfl hok hn]
    split <;> rfl
  have hbad : ∀ status data, statusOk status = false → data.isNullish = false →
      (data.get (js "error")).convertible = true →
      starFailure host (.response status (.ok data)) =
        some (if (data.get (js "error")).truthy then (data.get (js "error")).text
           else js "HTTP error! status: " ++ natStr status) := by
    intro status data hok hn hcv
    simp only [starFailure, hn, hok, hcv, Bool.false_eq_true, if_false, if_true]
    split <;> rfl
  refine ⟨?_, ?_, ?_, ?_, ?_, ?_⟩
  · cases hf : starFailure host out with
    | some msg => exact Or.inl ⟨_, hfail out msg hf⟩
    | none =>
      obtain ⟨status, data, rfl, hok, hn⟩ := starFailure_none host out hf
      have h := hres status data hok hn
      by_cases hcc : conversionsComplete data { b with disabled := true } = true
      · rw [if_pos hcc] at h
        exact Or.inr ⟨status, data, rfl, hok, h⟩
      · rw [if_neg hcc] at h
        exact Or.inl ⟨_, h⟩
  · rintro status data rfl hok hn hc1 hc2
    have h := hres status data hok hn
    have hcc : conversionsComplete data { b with disabled := true } = true := by
      simp [conversionsComplete, hc1, hc2]
    rw [if_pos hcc] at h
    exact h
  · rintro status data rfl hok hn hcv
    exact hfail _ _ (hbad status data hok hn hcv)
  · rintro status data s rfl hok hs hne
    have hn : data.isNullish = false := isNullish_of_get_ne data _ (by rw [hs]; simp)
    have ht := truthy_str s hne
    have := hfail _ _ (hbad status data hok hn (by rw [hs]; rfl))
    rw [hs, ht] at this
    exact this
  · rintro e rfl
    exact hfail _ _ rfl
  · rintro status e rfl
    exact hfail _ _ rfl

/-- A 403 answer with `error: Forbidden` is returned as that error. -/
theorem C5_result_is_returned_witness :
    isLoggedIn samplePage = true ∧ samplePage.button = some sampleButton ∧
    (toggleStar sampleHost (js "document") (js "7") true samplePage
        (.response 403 (.ok (.obj [(js "error", .str (js "Forbidden"))])))).2 =
      .ok (.obj [(js "error", .str (js "Forbidden"))]) :=
  ⟨by decide, rfl,
    (C5_result_is_returned sampleHost (js "document") (js "7") true samplePage sampleButton
      (.response 403 (.ok (.obj [(js "error", .str (js "Forbidden"))])))
      (by decide) rfl).2.2.2.1 403 _ (js "Forbidden") rfl (by decide) rfl (by decide)⟩

/-- A 500 answer whose body is not JSON returns the parse error's message, not the
status message; an OK answer whose body is `null` returns an error object, not
the parsed body; so does an OK answer whose `message` or `star_count` is
`{"toString": 1}`, on which `alert` or the counter's setter throws; and a 403
answer whose `error` is `{"toString": 1}` returns the engine's message, neither
the field nor the status message. -/
theorem C5_counterexample :
    statusOk 500 = false ∧
    (toggleStar sampleHost (js "document") (js "7") true samplePage
        (.response 500 (.error ⟨js "Unexpected token <"⟩))).2 =
      .ok (.obj [(js "error", .str (js "Unexpected token <"))]) ∧
    js "Unexpected token <" ≠ js "HTTP error! status: " ++ natStr 500 ∧
    statusOk 200 = true ∧
    (toggleStar sampleHost (js "document") (js "7") true samplePage
        (.response 200 (.ok .null))).2 =
      .ok (.obj [(js "error",
        .str (js "Cannot read properties of null (reading starred)"))]) ∧
    (toggleStar sampleHost (js "document") (js "7") true samplePage
        (.response 200 (.ok noTextMessageData))).2 =
      .ok (.obj [(js "error", .str (js "Cannot convert object to primitive value"))]) ∧
    (toggleStar sampleHost (js "document") (js "7") true samplePage
        (.response 200 (.ok noTextCountData))).2 =
      .ok (.obj [(js "error", .str (js "Cannot convert object to primitive value"))]) ∧
    (toggleStar sampleHost (js "document") (js "7") true samplePage
        (.response 403 (.ok noTextErrorData))).2 =
      .ok (.obj [(js "error", .str (js "Cannot convert object to primitive value"))]) :=
  ⟨by decide, rfl, by decide, by decide, rfl, rfl, rfl, rfl⟩

/-! ## All-or-nothing updates -/

theorem previewHTML_ok (host : Host) (doc t : JSVal) (path enc : JSString)
    (hn : doc.isNullish = false)
    (henc : encodeURIComponent host path = .ok enc)
    (hc : (doc.get (js "title")).convertible = true) (ht : t.convertible = true) :
    ∃ markup, previewHTML host doc t (.str path) = .ok markup := by
  unfold previewHTML
  split
  · exact ⟨imageHTML enc (doc.get (js "title")).text, by
      simp only [encodeCall_str, henc, getProp_ok host doc _ hn, toStr_ok host _ hc]⟩
  · split
    · exact ⟨pdfHTML enc, by simp only [encodeCall_str, henc]⟩
    · split
      · exact ⟨htmlHTML enc, by simp only [encodeCall_str, henc]⟩
      · exact ⟨placeholderHTML t.text, by simp only [toStr_ok host _ ht]⟩

/-- C9, amended: `toggleStar`, for every outcome of its request in which the
`star_count` and `message` of an OK response convert to text, either applies its
whole update (class, icon, label, counter), shows the success toast and returns
the body, or shows the failure toast and leaves class, icon, label and counter as
they were.  `showDocumentPreview`, for every outcome in which the body of an OK
response is `null` or a record whose display fields and resolved type convert to
text and whose `file_path` is a non-empty well-formed string, either applies its
whole update from that record (display fields, download link, preview region)
and shows the content panel, or shows the error panel and leaves the display
fields, the download link and the preview region as they were after the reset. -/
theorem C9_all_or_nothing (host : Host) (docId : JSString) (dom : PreviewDOM)
    (outP : FetchOutcome) (itemType itemId : JSString) (hasEvent : Bool) (page : Page)
    (b : StarButton) (outS : FetchOutcome)
    (hP : ∀ status doc, outP = .response status (.ok doc) → statusOk status = true →
      doc.isNullish = false →
      fieldsConvertible doc = true ∧
      ∃ p enc, doc.get (js "file_path") = .str p ∧ p ≠ [] ∧
        encodeURIComponent host p = .ok enc ∧ (resolvedType host doc p).convertible = true)
    (hS : ∀ status data, outS = .response status (.ok data) → statusOk status = true →
      (data.get (js "star_count")).convertible = true ∧
      (data.get (js "message")).convertible = true)
    (hlogin : isLoggedIn page = true) (hb : page.button = some b) :
    ((∃ status doc p enc markup,
        outP = .response status (.ok doc) ∧ statusOk status = true ∧
        doc.get (js "file_path") = .str p ∧ encodeURIComponent host p = .ok enc ∧
        previewHTML host doc (resolvedType host doc p) (.str p) = .ok markup ∧
        (showDocumentPreview host docId dom outP).contentDisplay = js "block" ∧
        (showDocumentPreview host docId dom outP).errorDisplay = js "none" ∧
        (showDocumentPreview host docId dom outP).title =
          dom.title.map (fun _ => (doc.get (js "title")).nodeText) ∧
        (showDocumentPreview host docId dom outP).author =
          dom.author.map (fun _ =>
            ((doc.get (js "author")).orElse (.str (js "Unknown"))).nodeText) ∧
        (showDocumentPreview host docId dom outP).date =
          dom.date.map (fun _ => host.toLocaleDateString (doc.get (js "created_at"))) ∧
        (showDocumentPreview host docId dom outP).description =
          dom.description.map (fun _ =>
            ((doc.get (js "description")).orElse (.str [])).nodeText) ∧
        (showDocumentPreview host docId dom outP).downloadBtn =
          dom.downloadBtn.map (fun _ => ⟨js "/uploads/" ++ enc, afterLast '/'.toNat p⟩) ∧
        (showDocumentPreview host docId dom outP).filePreview = markup) ∨
      ((showDocumentPreview host docId dom outP).errorDisplay = js "block" ∧
        (showDocumentPreview host docId dom outP).contentDisplay = js "none" ∧
        (showDocumentPreview host docId dom outP).title = dom.title ∧
        (showDocumentPreview host docId dom outP).author = dom.author ∧
        (showDocumentPreview host docId dom outP).date = dom.date ∧
        (showDocumentPreview host docId dom outP).description = dom.description ∧
        (showDocumentPreview host docId dom outP).downloadBtn = dom.downloadBtn ∧
        (showDocumentPreview host docId dom outP).filePreview = [])) ∧
    ((∃ status data,
        outS = .response status (.ok data) ∧ statusOk status = true ∧
        (toggleStar host itemType itemId hasEvent page outS).2 = .ok data ∧
        (toggleStar host itemType itemId hasEvent page outS).1.alerts =
          page.alerts ++ [successToast data] ∧
        (toggleStar host itemType itemId hasEvent page outS).1.button =
          some { applyStarred (data.get (js "starred")).truthy b with
            counter :=
              if (data.get (js "star_count")).isDefined then
                b.counter.map (fun _ => (data.get (js "star_count")).nodeText)
              else b.counter
            disabled := false }) ∨
      ((∃ msg, (toggleStar host itemType itemId hasEvent page outS).2 =
          .ok (.obj [(js "error", .str msg)])) ∧
        (toggleStar host itemType itemId hasEvent page outS).1.alerts =
          page.alerts ++ [js "Failed to update star"] ∧
        (toggleStar host itemType itemId hasEvent page outS).1.button =
          some { b with disabled := false })) := by
  refine ⟨?_, ?_⟩
  · have hfail : ∀ e, showDocumentPreviewTry host outP (showDocumentPreviewBegin docId dom).1
          = .error ((showDocumentPreviewBegin docId dom).1, e) →
        (showDocumentPreview host docId dom outP).errorDisplay = js "block" ∧
        (showDocumentPreview host docId dom outP).contentDisplay = js "none" ∧
        (showDocumentPreview host docId dom outP).title = dom.title ∧
        (showDocumentPreview host docId dom outP).author = dom.author ∧
        (showDocumentPreview host docId dom outP).date = dom.date ∧
        (showDocumentPreview host docId dom outP).description = dom.description ∧
        (showDocumentPreview host docId dom outP).downloadBtn = dom.downloadBtn ∧
        (showDocumentPreview host docId dom outP).filePreview = [] := by
      intro e he
      simp only [showDocumentPreview, he]
      exact ⟨rfl, rfl, rfl, rfl, rfl, rfl, rfl, rfl⟩
    cases outP with
    | rejected e => exact Or.inr (hfail e rfl)
    | response status json =>
      by_cases hok : statusOk status = true
      · cases json with
        | error e =>
          exact Or.inr (hfail e (by
            simp only [showDocumentPreviewTry, hok, Bool.not_true, Bool.false_eq_true,
              if_false]))
        | ok doc =>
          by_cases hn : doc.isNullish = true
          · obtain ⟨e, he⟩ := applyDocument_nullish host doc
              (showDocumentPreviewBegin docId dom).1 hn
            exact Or.inr (hfail e (by
              simp only [showDocumentPreviewTry, hok, Bool.not_true, Bool.false_eq_true,
                if_false, he]))
          · have hn2 : doc.isNullish = false := by simpa using hn
            obtain ⟨hc, p, enc, hp, hne, henc, hrt⟩ := hP status doc rfl hok hn2
            have htitle : (doc.get (js "title")).convertible = true := by
              simp only [fieldsConvertible, Bool.and_eq_true] at hc
              exact hc.1.1.1
            obtain ⟨markup, hm⟩ := previewHTML_ok host doc (resolvedType host doc p) p enc
              hn2 henc htitle hrt
            left
            refine ⟨status, doc, p, enc, markup, rfl, hok, hp, henc, hm, ?_⟩
            rw [showDocumentPreview_str host docId dom status doc p enc hok hp hne henc hc, hm]
            exact ⟨rfl, rfl, rfl, rfl, rfl, rfl, rfl, rfl⟩
      · have hok2 : statusOk status = false := by simpa using hok
        exact Or.inr (hfail ⟨js "HTTP error! status: " ++ natStr status⟩ (by
          simp only [showDocumentPreviewTry, hok2, Bool.not_false, if_true]))
  · rw [toggleStar_eq host itemType itemId hasEvent page outS b hlogin hb]
    cases hf : starFailure host outS with
    | some msg =>
      rw [toggleStarResume_fail host outS _ { b with disabled := true } msg rfl hf]
      exact Or.inr ⟨⟨msg, rfl⟩, rfl, rfl⟩
    | none =>
      obtain ⟨status, data, rfl, hok, hn⟩ := starFailure_none host outS hf
      obtain ⟨hc1, hc2⟩ := hS status data rfl hok
      have hcc : conversionsComplete data { b with disabled := true } = true := by
        simp [conversionsComplete, hc1, hc2]
      rw [toggleStarResume_ok host status data _ { b with disabled := true } rfl hok hn,
        if_pos hcc]
      refine Or.inl ⟨status, data, rfl, hok, rfl, rfl, ?_⟩
      obtain ⟨dis, cl, ic, lb, ct⟩ := b
      cases (data.get (js "starred")).truthy <;> cases ct <;>
        cases hd : (data.get (js "star_count")).isDefined <;>
        simp [applyStarred, counterAfter, hc1, hd]

set_option maxRecDepth 100000 in
/-- On the sample inputs both handlers take the full-update branch: the preview of
`samplePdfDoc` ends on the content panel and the toggle answered by `starredData`
returns that body. -/
theorem C9_all_or_nothing_witness :
    (∀ status doc, FetchOutcome.response 200 (.ok samplePdfDoc) = .response status (.ok doc) →
      statusOk status = true → doc.isNullish = false →
      fieldsConvertible doc = true ∧
      ∃ p enc, doc.get (js "file_path") = .str p ∧ p ≠ [] ∧
        encodeURIComponent sampleHost p = .ok enc ∧
        (resolvedType sampleHost doc p).convertible = true) ∧
    (∀ status data, FetchOutcome.response 200 (.ok starredData) = .response status (.ok data) →
      statusOk status = true →
      (data.get (js "star_count")).convertible = true ∧
      (data.get (js "message")).convertible = true) ∧
    isLoggedIn samplePage = true ∧ samplePage.button = some sampleButton ∧
    (showDocumentPreview sampleHost (js "7") sampleDOM
      (.response 200 (.ok samplePdfDoc))).contentDisplay = js "block" ∧
    (showDocumentPreview sampleHost (js "7") sampleDOM
      (.response 200 (.ok samplePdfDoc))).title = some (js "Report") ∧
    (∃ status data, FetchOutcome.response 200 (.ok starredData) = .response status (.ok data) ∧
      (toggleStar sampleHost (js "document") (js "7") true samplePage
        (.response 200 (.ok starredData))).2 = .ok data) :=
  have hP : ∀ status doc,
      FetchOutcome.response 200 (.ok samplePdfDoc) = .response status (.ok doc) →
      statusOk status = true → doc.isNullish = false →
      fieldsConvertible doc = true ∧
      ∃ p enc, doc.get (js "file_path") = .str p ∧ p ≠ [] ∧
        encodeURIComponent sampleHost p = .ok enc ∧
        (resolvedType sampleHost doc p).convertible = true := by
    intro status doc h _ _
    cases h
    exact ⟨by decide, js "docs/report.PDF", js "docs%2Freport.PDF", rfl, by decide, rfl,
      by decide⟩
  have hS : ∀ status data,
      FetchOutcome.response 200 (.ok starredData) = .response status (.ok data) →
      statusOk status = true →
      (data.get (js "star_count")).convertible = true ∧
      (data.get (js "message")).convertible = true := by
    intro status data h _
    cases h
    exact ⟨by decide, by decide⟩
  have h := C9_all_or_nothing sampleHost (js "7") sampleDOM (.response 200 (.ok samplePdfDoc))
    (js "document") (js "7") true samplePage sampleButton (.response 200 (.ok starredData))
    hP hS (by decide) rfl
  ⟨hP, hS, by decide, rfl,
    h.1.elim (fun ⟨_, _, _, _, _, _, _, _, _, _, hcd, _⟩ => hcd)
      (fun hf => absurd hf.2.1 (by decide)),
    h.1.elim (fun ⟨_, doc, _, _, _, hout, _, _, _, _, _, _, ht, _⟩ => by
        cases hout
        exact ht)
      (fun hf => absurd hf.2.1 (by decide)),
    h.2.elim (fun ⟨status, data, hout, _, hr, _⟩ => ⟨status, data, hout, hr⟩)
      (fun hf => absurd hf.2.1 (by decide))⟩

set_option maxRecDepth 100000 in
/-- For a record whose `file_path` is the number 5, one whose `author` is
`{"toString": 1}`, one whose `file_path` holds an unpaired surrogate and one
whose `file_type` is `{"toString": 1}`, the preview handler ends on the error
panel with the title already replaced (and, for the first and the last, the
download target too).  For a record without `file_path` it shows the content
panel with the new title and the download link of the earlier document.  For a
response whose `star_count` or `message` is `{"toString": 1}`, `toggleStar` shows
the failure toast with the class `starred` already added. -/
theorem C9_counterexample :
    (resetUI sampleDOM).title = some (js "Old title") ∧
    (resetUI sampleDOM).downloadBtn = some ⟨js "/uploads/old.txt", js "old.txt"⟩ ∧
    (showDocumentPreview sampleHost (js "7") sampleDOM
      (.response 200 (.ok numericPathDoc))).errorDisplay = js "block" ∧
    (showDocumentPreview sampleHost (js "7") sampleDOM
      (.response 200 (.ok numericPathDoc))).title = some (js "Report") ∧
    (showDocumentPreview sampleHost (js "7") sampleDOM
      (.response 200 (.ok numericPathDoc))).downloadBtn =
        some ⟨js "/uploads/5", js "old.txt"⟩ ∧
    (showDocumentPreview sampleHost (js "7") sampleDOM
      (.response 200 (.ok noTextAuthorDoc))).errorDisplay = js "block" ∧
    (showDocumentPreview sampleHost (js "7") sampleDOM
      (.response 200 (.ok noTextAuthorDoc))).title = some (js "Report") ∧
    (showDocumentPreview sampleHost (js "7") sampleDOM
      (.response 200 (.ok noPathDoc))).contentDisplay = js "block" ∧
    (showDocumentPreview sampleHost (js "7") sampleDOM
      (.response 200 (.ok noPathDoc))).title = some (js "Report") ∧
    (showDocumentPreview sampleHost (js "7") sampleDOM
      (.response 200 (.ok noPathDoc))).downloadBtn =
        some ⟨js "/uploads/old.txt", js "old.txt"⟩ ∧
    (toggleStar sampleHost (js "document") (js "7") true samplePage
      (.response 200 (.ok noTextCountData))).1.alerts = [js "Failed to update star"] ∧
    (toggleStar sampleHost (js "document") (js "7") true samplePage
      (.response 200 (.ok noTextCountData))).1.button.map (fun x => x.classList) =
        some [js "star-btn", js "starred"] ∧
    (toggleStar sampleHost (js "document") (js "7") true samplePage
      (.response 200 (.ok noTextMessageData))).1.alerts = [js "Failed to update star"] ∧
    (toggleStar sampleHost (js "document") (js "7") true samplePage
      (.response 200 (.ok noTextMessageData))).1.button.map (fun x => x.classList) =
        some [js "star-btn", js "starred"] ∧
    (showDocumentPreview sampleHost (js "7") sampleDOM
      (.response 200 (.ok surrogatePathDoc))).errorDisplay = js "block" ∧
    (showDocumentPreview sampleHost (js "7") sampleDOM
      (.response 200 (.ok surrogatePathDoc))).title = some (js "Report") ∧
    (showDocumentPreview sampleHost (js "7") sampleDOM
      (.response 200 (.ok noTextTypeDoc))).errorDisplay = js "block" ∧
    (showDocumentPreview sampleHost (js "7") sampleDOM
      (.response 200 (.ok noTextTypeDoc))).downloadBtn =
        some ⟨js "/uploads/a%2Fb.bin", js "b.bin"⟩ := by
  decide

/-! ## `encodeText` agrees with `encodeURIComponent` on well-formed text -/

theorem encodeUnits_cons_plain (u : Nat) (tail : JSString)
    (hh : isHighSurrogate u = false) (hl : isLowSurrogate u = false) :
    encodeUnits (u :: tail) =
      (encodeUnits tail).map (fun r =>
        (if isUnreserved u then [u] else percentCodePoint u) ++ r) := by
  cases tail with
  | nil =>
    by_cases hu : isUnreserved u = true <;> simp [encodeUnits, hu, hh, hl]
  | cons l rest =>
    by_cases hu : isUnreserved u = true
    · simp only [encodeUnits, hu, if_true]
      cases encodeUnits (l :: rest) <;> simp
    · simp only [encodeUnits, hu, hh, hl, if_false, Bool.false_eq_true]

theorem encodeUnits_cons_pair (h l : Nat) (tail : JSString)
    (hu : isUnreserved h = false) (hh : isHighSurrogate h = true)
    (hl : isLowSurrogate l = true) :
    encodeUnits (h :: l :: tail) =
      (encodeUnits tail).map (fun r =>
        percentCodePoint (0x10000 + (h - 0xD800) * 0x400 + (l - 0xDC00)) ++ r) := by
  simp only [encodeUnits, hu, hh, hl, if_true, if_false, Bool.false_eq_true]

theorem encodeUnits_utf16 (s : List Char) :
    encodeUnits (s.flatMap utf16) = some (encodeText s) := by
  induction s with
  | nil => simp [encodeUnits, encodeText]
  | cons c cs ih =>
    have hv : c.toNat < 0xD800 ∨ (0xDFFF < c.toNat ∧ c.toNat < 0x110000) := c.valid
    simp only [List.flatMap_cons, encodeText] at ih ⊢
    by_cases hbmp : c.toNat < 0x10000
    · have hns : c.toNat < 0xD800 ∨ 0xDFFF < c.toNat := by
        rcases hv with h | ⟨h, _⟩
        · exact Or.inl h
        · exact Or.inr h
      have hh : isHighSurrogate c.toNat = false := by
        simp only [isHighSurrogate, Bool.and_eq_false_imp, decide_eq_true_eq, decide_eq_false_iff_not]
        omega
      have hl : isLowSurrogate c.toNat = false := by
        simp only [isLowSurrogate, Bool.and_eq_false_imp, decide_eq_true_eq, decide_eq_false_iff_not]
        omega
      simp only [utf16, hbmp, if_true, List.singleton_append]
      rw [encodeUnits_cons_plain _ _ hh hl, ih]
      rfl
    · have hlt : c.toNat < 0x110000 := by
        rcases hv with h | ⟨_, h⟩
        · omega
        · exact h
      have hu : isUnreserved c.toNat = false := by
        simp only [isUnreserved, Bool.or_eq_false_iff, Bool.and_eq_false_imp, decide_eq_true_eq,
          decide_eq_false_iff_not]
        refine ⟨⟨⟨?_, ?_⟩, ?_⟩, ?_⟩
        · intro _; simp only [Char.reduceToNat]; omega
        · intro _; simp only [Char.reduceToNat]; omega
        · intro _; simp only [Char.reduceToNat]; omega
        · simp only [Char.reduceToNat, List.mem_cons, List.mem_singleton, List.not_mem_nil,
            or_false]
          omega
      have hu2 : isUnreserved (0xD800 + (c.toNat - 0x10000) / 0x400) = false := by
        simp only [isUnreserved, Bool.or_eq_false_iff, Bool.and_eq_false_imp, decide_eq_true_eq,
          decide_eq_false_iff_not]
        refine ⟨⟨⟨?_, ?_⟩, ?_⟩, ?_⟩
        · intro _; simp only [Char.reduceToNat]; omega
        · intro _; simp only [Char.reduceToNat]; omega
        · intro _; simp only [Char.reduceToNat]; omega
        · simp only [Char.reduceToNat, List.mem_cons, List.mem_singleton, List.not_mem_nil,
            or_false]
          omega
      have hh : isHighSurrogate (0xD800 + (c.toNat - 0x10000) / 0x400) = true := by
        simp only [isHighSurrogate, Bool.and_eq_true, decide_eq_true_eq]
        omega
      have hl : isLowSurrogate (0xDC00 + (c.toNat - 0x10000) % 0x400) = true := by
        simp only [isLowSurrogate, Bool.and_eq_true, decide_eq_true_eq]
        omega
      have hcp : 0x10000 + (0xD800 + (c.toNat - 0x10000) / 0x400 - 0xD800) * 0x400 +
          (0xDC00 + (c.toNat - 0x10000) % 0x400 - 0xDC00) = c.toNat := by
        omega
      simp only [utf16, hbmp, if_false, List.cons_append, List.nil_append]
      rw [encodeUnits_cons_pair _ _ _ hu2 hh hl, ih, hcp]
      simp [hu]




end FulDocs
